import Mathlib

/-!
# Verification of the system-trace telemetry core

Shallow embedding of the browser telemetry aggregator:
* the inferred-telemetry scorer (`InferredTelemetry`, src/unnamed/part_001),
* the continuous sampler loop (`ContinuousTelemetry`, src/unnamed/part_004),
* the orchestrator (`TelemetryCollector`, src/system-trace/telemetry.js),
* the flat-schema exporter (`SchemaExporter`, src/system-trace/schema-exporter.js).

Modelling conventions:
* JavaScript numbers are modelled as exact rationals (`ℚ`).  The scorer's
  arithmetic is addition, subtraction, multiplication, division, `Math.min`,
  `Math.max`, `Math.round` and one `Math.sqrt`; all inputs appearing in the
  stated theorems keep every intermediate value rational (the square roots
  taken there are of rational squares), so the idealised rational semantics
  agrees with the source on those inputs.  `Math.sqrt` is modelled by
  `Rat.sqrt`, which is exact on squares of rationals.
* JavaScript `NaN` and the infinities, which the scorer can actually produce
  (division `0/0` in the coefficient-of-variation step), are modelled
  explicitly by the type `JSNum` with the ECMAScript semantics of the
  operators that occur in that code path.
* `x || d` on numbers maps `null`/`NaN`/`0` to `d`; `x ?? null` and
  optional-chaining are modelled with `Option`.
* The sampler and orchestrator are modelled as explicit state-passing
  functions; the timer is modelled by passing each tick's wall-clock time
  (`Date.now()`) and the five sub-readings as arguments.  A user callback is
  modelled as a function into `Except ε Unit` (`.error` = the callback threw).
-/

/-- JavaScript `Math.round` on a finite number: round half toward `+∞`. -/
def jsRound (q : ℚ) : ℚ := (⌊q + 1/2⌋ : ℤ)

/-- A JavaScript number: `NaN`, `±Infinity` (`inf true` is `+∞`), or a finite
value modelled as an exact rational. -/
inductive JSNum where
  | nan : JSNum
  | inf : Bool → JSNum
  | val : ℚ → JSNum
deriving DecidableEq, Repr

namespace JSNum

/-- ECMAScript subtraction restricted to the values reachable here. -/
def sub : JSNum → JSNum → JSNum
  | nan, _ => nan
  | _, nan => nan
  | inf s, inf t => if s = t then nan else inf s
  | inf s, val _ => inf s
  | val _, inf t => inf (!t)
  | val a, val b => val (a - b)

/-- ECMAScript multiplication restricted to the values reachable here. -/
def mul : JSNum → JSNum → JSNum
  | nan, _ => nan
  | _, nan => nan
  | inf s, inf t => inf (s = t)
  | inf s, val q => if q = 0 then nan else inf (s = decide (0 < q))
  | val q, inf s => if q = 0 then nan else inf (s = decide (0 < q))
  | val a, val b => val (a * b)

/-- ECMAScript addition restricted to the values reachable here. -/
def add : JSNum → JSNum → JSNum
  | nan, _ => nan
  | _, nan => nan
  | inf s, inf t => if s = t then inf s else nan
  | inf s, val _ => inf s
  | val _, inf t => inf t
  | val a, val b => val (a + b)

/-- ECMAScript division of two finite numbers (`0/0` is `NaN`,
`x/0` is `±∞` for `x ≠ 0`). -/
def divQ (a b : ℚ) : JSNum :=
  if b = 0 then (if a = 0 then nan else inf (0 < a)) else val (a / b)

/-- JavaScript `Math.max` of two numbers: `NaN` absorbs, infinities compare
as expected. -/
def maxJS : JSNum → JSNum → JSNum
  | nan, _ => nan
  | _, nan => nan
  | inf true, _ => inf true
  | _, inf true => inf true
  | inf false, x => x
  | x, inf false => x
  | val a, val b => val (max a b)

/-- JavaScript `Math.round`: `NaN` and the infinities pass through. -/
def roundJS : JSNum → JSNum
  | nan => nan
  | inf s => inf s
  | val q => val (jsRound q)

/-- JavaScript `x >= c` for a number `x` and finite `c`: false on `NaN`. -/
def geQ : JSNum → ℚ → Bool
  | nan, _ => false
  | inf s, _ => s
  | val q, c => decide (c ≤ q)

end JSNum

/-!
## Data model of one continuous sample

Fields are restricted to those the scorer reads (part_001).  `rtt` is
`Option ℚ` because `collectNetworkMetrics` stores `connection.rtt || null`
(part_004 line 117): absent connection API, a zero RTT, or no RTT reading all
yield `null`.
-/

/-- The `network` sub-reading of one continuous sample (part_004
`collectNetworkMetrics`), restricted to the fields the scorer reads. -/
structure NetworkReading where
  online : Bool
  rtt : Option ℚ
  networkChangeCount : ℕ
deriving DecidableEq, Repr

/-- The `memory` sub-reading of one continuous sample (part_004
`collectMemoryMetrics`), restricted to the fields the scorer reads. -/
structure MemoryReading where
  available : Bool
  jsHeapLimit : Option ℚ
deriving DecidableEq, Repr

/-- The `performance` sub-reading of one continuous sample (part_004
`collectPerformanceMetrics`), restricted to the fields the scorer reads. -/
structure PerfReading where
  eventLoopDelay : Option ℚ
  timerThrottlingDetected : Bool
deriving DecidableEq, Repr

/-- The `activity` sub-reading of one continuous sample (part_004
`collectActivityMetrics`), restricted to the fields the scorer reads. -/
structure ActivityReading where
  tabVisibility : String
  idleDuration : Option ℚ
  focusLossCount : ℕ
deriving DecidableEq, Repr

/-- The `battery` sub-reading of one continuous sample (part_004
`collectBatteryMetrics`); the scorer never reads it, only its presence in the
sample matters (claims C4/C5). -/
structure BatteryReading where
  available : Bool
deriving DecidableEq, Repr

/-- One continuous sample (part_004 `collectSample`): the five sub-readings
tagged with the elapsed-time offset `Date.now() - this.startTime`. -/
structure Sample where
  elapsed : ℤ
  network : NetworkReading
  memory : MemoryReading
  perf : PerfReading
  activity : ActivityReading
  battery : BatteryReading
deriving DecidableEq, Repr

/-!
## Scorer (`InferredTelemetry`, src/unnamed/part_001 lines 560-986)
-/

/-- Embeds `InferredTelemetry.calculateNetworkStability` (part_001 lines
742-755).  The argument is the list of `network` objects the caller passes in
(filtered or not — the two call sites differ).  JavaScript adds `null` RTTs
as `0` (`reduce((a, b) => a + b, 0)`), hence `Option.getD 0`; the division
`stdDev / avgRTT` is the one place `NaN`/`∞` can arise, via `JSNum.divQ`. -/
def calculateNetworkStability (networkSamples : List NetworkReading) : Option JSNum :=
  if networkSamples.length < 2 then none
  else
    let rtts : List (Option ℚ) := networkSamples.map (·.rtt)
    let avgRTT : ℚ := (rtts.foldl (fun a b => a + b.getD 0) 0) / rtts.length
    let variance : ℚ :=
      (rtts.foldl (fun sum rtt => sum + (rtt.getD 0 - avgRTT) ^ 2) 0) / rtts.length
    let stdDev : ℚ := Rat.sqrt variance
    let coefficientOfVariation : JSNum := JSNum.divQ stdDev avgRTT
    let stabilityScore : JSNum :=
      JSNum.maxJS (.val 0) (JSNum.sub (.val 100) (JSNum.mul coefficientOfVariation (.val 100)))
    some stabilityScore.roundJS

/-- Embeds `InferredTelemetry.calculateSessionReliability` (part_001 lines
771-785).  `this.continuousSamples[0]?.network.networkChangeCount || 0` reads
the change count recorded in the FIRST sample. -/
def calculateSessionReliability (samples : List Sample) : Option ℚ :=
  if samples.length = 0 then none
  else
    let onlineSamples : ℕ := (samples.filter (·.network.online)).length
    let totalSamples : ℕ := samples.length
    let onlinePercentage : ℚ := ((onlineSamples : ℚ) / totalSamples) * 100
    let networkChanges : ℕ := ((samples.head?).map (·.network.networkChangeCount)).getD 0
    let changePenalty : ℚ := min 20 ((networkChanges : ℚ) * 2)
    some (jsRound (max 0 (onlinePercentage - changePenalty)))

/-- Embeds `InferredTelemetry.inferThrottlingLikelihood` (part_001 lines
892-899). -/
def inferThrottlingLikelihood (performanceSamples : List PerfReading) : String :=
  let throttlingDetected : ℕ := (performanceSamples.filter (·.timerThrottlingDetected)).length
  let throttlingRatio : ℚ := (throttlingDetected : ℚ) / performanceSamples.length
  if 3/10 < throttlingRatio then "High"
  else if 1/10 < throttlingRatio then "Medium"
  else "Low"

/-- Embeds `InferredTelemetry.calculateDeviceStability` (part_001 lines
901-919).  `new Set(heapLimits).size === 1` is modelled with `List.dedup`;
`s.performance?.eventLoopDelay || 0` with `Option.getD 0`. -/
def calculateDeviceStability (samples : List Sample) : Option ℚ :=
  let memorySamples : List MemoryReading := (samples.map (·.memory)).filter (·.available)
  if memorySamples.length < 2 then none
  else
    let heapLimits : List (Option ℚ) := memorySamples.map (·.jsHeapLimit)
    let limitConsistency : ℚ := if heapLimits.dedup.length = 1 then 100 else 50
    let eventLoopDelays : List ℚ := samples.map (fun s => (s.perf.eventLoopDelay).getD 0)
    let avgDelay : ℚ := (eventLoopDelays.foldl (· + ·) 0) / eventLoopDelays.length
    let delayScore : ℚ := max 0 (100 - avgDelay * 10)
    some (jsRound ((limitConsistency + delayScore) / 2))

/-- The record returned by `inferSessionIntegrity` (part_001 lines 871-890). -/
structure SessionIntegrity where
  network_stability_score : Option JSNum
  session_reliability_score : Option ℚ
  throttling_likelihood : Option String
  device_stability_score : Option ℚ
deriving DecidableEq, Repr

/-- Embeds `InferredTelemetry.inferSessionIntegrity` (part_001 lines
871-890).  Note: unlike `inferNetworkMetrics` (lines 730-732), this call site
passes ALL network objects to `calculateNetworkStability` without filtering
out the samples whose `rtt` is `null`. -/
def inferSessionIntegrity (samples : List Sample) : SessionIntegrity :=
  if samples.length = 0 then
    { network_stability_score := none
      session_reliability_score := none
      throttling_likelihood := none
      device_stability_score := none }
  else
    let networkSamples : List NetworkReading := samples.map (·.network)
    let performanceSamples : List PerfReading := samples.map (·.perf)
    { network_stability_score := calculateNetworkStability networkSamples
      session_reliability_score := calculateSessionReliability samples
      throttling_likelihood := some (inferThrottlingLikelihood performanceSamples)
      device_stability_score := calculateDeviceStability samples }

/-- The network-path stability score of `inferNetworkMetrics` (part_001 lines
720-740): the same `calculateNetworkStability`, but applied to the samples
filtered to those whose `rtt` is non-null (lines 730-732). -/
def inferNetworkMetricsStability (samples : List Sample) : Option JSNum :=
  if samples.length = 0 then none
  else
    let networkSamples : List NetworkReading :=
      (samples.map (·.network)).filter (fun n => n.rtt ≠ none)
    calculateNetworkStability networkSamples

/-- Permission-derived metrics the scorer reads
(`permissionMetrics.camera?.camera_active_ratio`,
`permissionMetrics.microphone?.mic_activity_ratio`, part_001 lines 835-837). -/
structure PermissionMetrics where
  camera_active_ratio : Option ℚ
  mic_activity_ratio : Option ℚ
deriving DecidableEq, Repr

/-- The record returned by `inferAgentPresence` (part_001 lines 819-854). -/
structure AgentPresence where
  screen_presence_ratio : Option ℚ
  camera_presence_ratio : Option ℚ
  mic_presence_ratio : Option ℚ
  idle_ratio : Option ℚ
  multitasking_likelihood : Option String
deriving DecidableEq, Repr

/-- JavaScript `Math.round(x * 100) / 100` (round to 2 decimals). -/
def jsRound2 (q : ℚ) : ℚ := jsRound (q * 100) / 100

/-- Embeds `InferredTelemetry.inferMultitaskingLikelihood` (part_001 lines
856-866). -/
def inferMultitaskingLikelihood (activitySamples : List ActivityReading) : String :=
  let focusLossCount : ℕ := (activitySamples.filter (0 < ·.focusLossCount)).length
  let focusLossRatio : ℚ := (focusLossCount : ℚ) / activitySamples.length
  let hiddenSamples : ℕ := (activitySamples.filter (·.tabVisibility = "hidden")).length
  let hiddenRatio : ℚ := (hiddenSamples : ℚ) / activitySamples.length
  if 3/10 < focusLossRatio ∨ 2/5 < hiddenRatio then "High"
  else if 1/10 < focusLossRatio ∨ 1/5 < hiddenRatio then "Medium"
  else "Low"

/-- Embeds `InferredTelemetry.inferAgentPresence` (part_001 lines 819-854).
`intervalMs` is `this.intervalMs`; `this.intervalMs || 5000` is modelled by
`if intervalMs = 0 then 5000 else intervalMs` (`0`/`null` are the falsy
cases reachable for a numeric field). -/
def inferAgentPresence (samples : List Sample) (pm : PermissionMetrics)
    (intervalMs : ℚ) : AgentPresence :=
  if samples.length = 0 then
    { screen_presence_ratio := none
      camera_presence_ratio := none
      mic_presence_ratio := none
      idle_ratio := none
      multitasking_likelihood := none }
  else
    let activitySamples : List ActivityReading := samples.map (·.activity)
    let visibleSamples : List ActivityReading :=
      activitySamples.filter (·.tabVisibility = "visible")
    let screenPresenceRatio : ℚ := (visibleSamples.length : ℚ) / activitySamples.length
    let cameraPresenceRatio : ℚ := (pm.camera_active_ratio).getD 0
    let micPresenceRatio : ℚ := (pm.mic_activity_ratio).getD 0
    let totalIdleTime : ℚ := activitySamples.foldl (fun sum a => sum + (a.idleDuration).getD 0) 0
    let totalTime : ℚ :=
      (activitySamples.length : ℚ) * (if intervalMs = 0 then 5000 else intervalMs) / 1000
    let idleRatio : ℚ := if 0 < totalTime then jsRound2 (totalIdleTime / totalTime) else 0
    { screen_presence_ratio := some (jsRound2 screenPresenceRatio)
      camera_presence_ratio := some (jsRound2 cameraPresenceRatio)
      mic_presence_ratio := some (jsRound2 micPresenceRatio)
      idle_ratio := some idleRatio
      multitasking_likelihood := some (inferMultitaskingLikelihood activitySamples) }

/-- Embeds `InferredTelemetry.calculateAgentPresenceScore` (part_001 lines
959-970).  The JavaScript comparisons read the (possibly `null`) ratio
fields; `null` coerces to `0` under `<`/`>`, hence `Option.getD 0`. -/
def calculateAgentPresenceScore (agentPresence : AgentPresence) : ℚ :=
  let score : ℚ := 100
  let score := if (agentPresence.screen_presence_ratio).getD 0 < 1/2 then score - 30 else score
  let score := if (agentPresence.camera_presence_ratio).getD 0 < 3/10 then score - 20 else score
  let score := if (agentPresence.mic_presence_ratio).getD 0 < 3/10 then score - 20 else score
  let score := if 7/10 < (agentPresence.idle_ratio).getD 0 then score - 20 else score
  let score := if agentPresence.multitasking_likelihood = some "High" then score - 10 else score
  max 0 (min 100 score)

/-- Embeds `InferredTelemetry.determineRiskLevel` (part_001 lines 972-977).
The comparisons are ECMAScript `>=` on the composite, which can in principle
be any `JSNum` (`NaN >= c` is false). -/
def determineRiskLevel (compositeScore : JSNum) : String :=
  if compositeScore.geQ 80 then "Low"
  else if compositeScore.geQ 60 then "Medium"
  else if compositeScore.geQ 40 then "High"
  else "Critical"

/-- JavaScript `x || 0` applied to a score that is `null`, a number, or
`NaN` (part_001 lines 939-940): `null`, `NaN` and `0` all coerce to `0`. -/
def jsOrZero : Option JSNum → JSNum
  | none => .val 0
  | some .nan => .val 0
  | some (.val q) => if q = 0 then .val 0 else .val q
  | some x => x

/-- The record returned by `inferRiskScores` (part_001 lines 924-957). -/
structure RiskScores where
  agent_presence_score : Option ℚ
  session_integrity_score : Option JSNum
  network_reliability_score : Option JSNum
  composite_agent_risk_score : Option JSNum
  risk_level : Option String
deriving DecidableEq, Repr

/-- Embeds `InferredTelemetry.inferRiskScores` (part_001 lines 924-957).
`sessionIntegrityScore` and `networkReliabilityScore` are
`sessionIntegrity.session_reliability_score || 0` and
`sessionIntegrity.network_stability_score || 0`. -/
def inferRiskScores (samples : List Sample) (pm : PermissionMetrics)
    (intervalMs : ℚ) : RiskScores :=
  if samples.length = 0 then
    { agent_presence_score := none
      session_integrity_score := none
      network_reliability_score := none
      composite_agent_risk_score := none
      risk_level := none }
  else
    let agentPresence := inferAgentPresence samples pm intervalMs
    let sessionIntegrity := inferSessionIntegrity samples
    let agentPresenceScore : ℚ := calculateAgentPresenceScore agentPresence
    let sessionIntegrityScore : JSNum :=
      jsOrZero ((sessionIntegrity.session_reliability_score).map .val)
    let networkReliabilityScore : JSNum := jsOrZero sessionIntegrity.network_stability_score
    let compositeRiskScore : JSNum :=
      (((JSNum.val agentPresenceScore).mul (.val (2/5))).add
        ((sessionIntegrityScore.mul (.val (3/10))).add
          (networkReliabilityScore.mul (.val (3/10))))).roundJS
    let riskLevel : String := determineRiskLevel compositeRiskScore
    { agent_presence_score := some agentPresenceScore
      session_integrity_score := some sessionIntegrityScore
      network_reliability_score := some networkReliabilityScore
      composite_agent_risk_score := some compositeRiskScore
      risk_level := some riskLevel }

/-- The record returned by `infer` (part_001 lines 571-578), minus the
wall-clock `timestamp` field. -/
structure Inferred where
  agentPresence : AgentPresence
  sessionIntegrity : SessionIntegrity
  riskScores : RiskScores
deriving DecidableEq, Repr

/-- Embeds `InferredTelemetry.infer` (part_001 lines 571-578).  The static
snapshot is not read by any of the three sub-inferences, so it is not a
parameter here. -/
def infer (samples : List Sample) (pm : PermissionMetrics) (intervalMs : ℚ) : Inferred :=
  { agentPresence := inferAgentPresence samples pm intervalMs
    sessionIntegrity := inferSessionIntegrity samples
    riskScores := inferRiskScores samples pm intervalMs }

/-!
## Sampler loop (`ContinuousTelemetry`, src/unnamed/part_004)

The timer and the browser signal surface are external: each tick is modelled
as a function taking the tick's wall-clock time (`Date.now()`) and the five
sub-readings produced by the collect helpers.  `collectSampleE` additionally
models the possibility that a sub-reading THROWS, as an `Except`: the source
`collectSample` (lines 86-101) contains no `try`/`catch`, so the monadic bind
faithfully propagates the first failure.
-/

/-- The five sub-readings of one tick, as produced by
`collectNetworkMetrics`/`collectMemoryMetrics`/`collectPerformanceMetrics`/
`collectActivityMetrics`/`collectBatteryMetrics` when none of them throws. -/
structure Readings where
  network : NetworkReading
  memory : MemoryReading
  perf : PerfReading
  activity : ActivityReading
  battery : BatteryReading
deriving DecidableEq, Repr

/-- The sampler state (part_004 constructor, lines 6-35), restricted to the
fields the claims are about. -/
structure SamplerState where
  isRunning : Bool
  startTime : ℤ
  samples : List Sample
deriving DecidableEq, Repr

/-- The initial sampler state (part_004 constructor). -/
def SamplerState.init : SamplerState :=
  { isRunning := false, startTime := 0, samples := [] }

/-- Embeds `ContinuousTelemetry.collectSample` (part_004 lines 86-101) for a
tick at wall-clock time `t` whose five sub-readings all succeed: builds the
sample with `elapsed = t - startTime`, pushes it, returns it. -/
def collectSample (st : SamplerState) (t : ℤ) (r : Readings) : SamplerState × Sample :=
  let sample : Sample :=
    { elapsed := t - st.startTime
      network := r.network
      memory := r.memory
      perf := r.perf
      activity := r.activity
      battery := r.battery }
  ({ st with samples := st.samples ++ [sample] }, sample)

/-- Embeds `ContinuousTelemetry.start` (part_004 lines 40-61): no-op when
already running; otherwise sets `isRunning`, records `startTime`, CLEARS
`samples`, and collects the initial sample immediately (tick 0). -/
def SamplerState.start (st : SamplerState) (t : ℤ) (r : Readings) : SamplerState :=
  if st.isRunning then st
  else
    let st := { st with isRunning := true, startTime := t, samples := [] }
    (collectSample st t r).1

/-- Embeds `ContinuousTelemetry.stop` (part_004 lines 66-81): no-op when not
running; otherwise clears `isRunning` and the interval, RETAINING the
collected samples. -/
def SamplerState.stop (st : SamplerState) : SamplerState :=
  if !st.isRunning then st else { st with isRunning := false }

/-- One sub-reading that may throw: `.error e` models a thrown exception
inside the corresponding collect helper. -/
structure EffReadings (ε : Type) where
  network : Except ε NetworkReading
  memory : Except ε MemoryReading
  perf : Except ε PerfReading
  activity : Except ε ActivityReading
  battery : Except ε BatteryReading

/-- Embeds `ContinuousTelemetry.collectSample` (part_004 lines 86-101) with
throwing sub-readings made explicit.  The source has NO `try`/`catch` around
the five collect calls, so the first exception propagates out of
`collectSample`: no sample is pushed and nothing is returned. -/
def collectSampleE {ε : Type} (st : SamplerState) (t : ℤ) (r : EffReadings ε) :
    Except ε (SamplerState × Sample) := do
  let network ← r.network
  let memory ← r.memory
  let perf ← r.perf
  let activity ← r.activity
  let battery ← r.battery
  let sample : Sample :=
    { elapsed := t - st.startTime, network := network, memory := memory
      perf := perf, activity := activity, battery := battery }
  pure ({ st with samples := st.samples ++ [sample] }, sample)

/-- One timer callback invocation (`setInterval(() => this.collectSample(),
...)`, part_004 lines 55-57) when sub-readings may throw.  An exception
thrown by `collectSample` escapes the interval callback; the host event loop
swallows it at the task boundary, so the sampler state object is left
unchanged and the interval keeps firing (`setInterval` is not cancelled by a
throwing callback). -/
def tickE {ε : Type} (st : SamplerState) (t : ℤ) (r : EffReadings ε) : SamplerState :=
  match collectSampleE st t r with
  | .ok (st', _) => st'
  | .error _ => st

/-- Runs `start` at time `t0` with readings `r0`, then one timer tick per
entry of `ticks` (each entry is that tick's wall-clock time and readings). -/
def runSession (st : SamplerState) (t0 : ℤ) (r0 : Readings)
    (ticks : List (ℤ × Readings)) : SamplerState :=
  ticks.foldl (fun s tr => (collectSample s tr.1 tr.2).1) (st.start t0 r0)

/-!
## Orchestrator (`TelemetryCollector`, src/system-trace/telemetry.js)

Callbacks are modelled by their behaviour on one invocation: a function into
`Except ε Unit`, where `.error e` means the callback threw.  The observable
routing of an error is recorded as a `Report`.
-/

/-- Where `handleError` (telemetry.js lines 220-237) sends an error: to the
registered `onError` callback, or to `console.error` when none (or when the
`onError` callback itself throws). -/
inductive Report where
  | toOnError (message : String) : Report
  | toConsole (message : String) : Report
deriving DecidableEq, Repr

/-- The orchestrator's callback registrations (telemetry.js lines 32-36),
each modelled by its behaviour. -/
structure Callbacks (ε : Type) where
  onSample : Option (Sample → Except ε Unit)
  onError : Option (String → Except ε Unit)

/-- Embeds `TelemetryCollector.handleError` (telemetry.js lines 220-237):
the error info goes to the registered `onError` callback inside its own
`try`/`catch` (a throwing `onError` is logged to the console), otherwise to
`console.error`. -/
def handleError {ε : Type} (cbs : Callbacks ε) (message : String) : List Report :=
  match cbs.onError with
  | some onErrorCb =>
      match onErrorCb message with
      | .ok _ => [.toOnError message]
      | .error _ => [.toOnError message, .toConsole "Error callback failed"]
  | none => [.toConsole message]

/-- Embeds the sample path of `TelemetryCollector.onSampleCollected`
(telemetry.js lines 96-117): the `onSample` callback is invoked inside
`try`/`catch`; a throw is routed through `handleError "Sample callback
error"`.  (The every-5th-sample `updateInferredTelemetry` throttle is not
modelled; it touches no state the claims are about.) -/
def onSampleCollected {ε : Type} (cbs : Callbacks ε) (sample : Sample) : List Report :=
  match cbs.onSample with
  | none => []
  | some cb =>
      match cb sample with
      | .ok _ => []
      | .error _ => handleError cbs "Sample callback error"

/-- The orchestrator state (telemetry.js constructor), restricted to the
fields the claims are about.  `hasInferred` models `this.inferredTelemetry
!== null`. -/
structure OrchState (ε : Type) where
  sampler : SamplerState
  callbacks : Callbacks ε
  hasInferred : Bool
  permissionMetrics : PermissionMetrics
  intervalMs : ℚ

/-- Embeds the orchestrator's per-tick wrapper installed by `start`
(telemetry.js lines 78-83): `originalCollect()` appends the sample FIRST,
then `onSampleCollected(sample)` runs the user callback.  Returns the new
state together with the error reports emitted during the tick. -/
def orchTick {ε : Type} (st : OrchState ε) (t : ℤ) (r : Readings) :
    OrchState ε × List Report :=
  let (sampler', sample) := collectSample st.sampler t r
  let reports := onSampleCollected st.callbacks sample
  ({ st with sampler := sampler' }, reports)

/-- Embeds `TelemetryCollector.getInferredTelemetry` (telemetry.js lines
189-194): `null` when `this.inferredTelemetry` is `null`, otherwise
`this.inferredTelemetry.infer()` over the current sample sequence. -/
def getInferredTelemetry {ε : Type} (st : OrchState ε) : Option Inferred :=
  if st.hasInferred then
    some (infer st.sampler.samples st.permissionMetrics st.intervalMs)
  else none

/-- Embeds `TelemetryCollector.reset` (telemetry.js lines 344-353): stops,
replaces the sampler with a fresh `ContinuousTelemetry` (empty sample
sequence), and sets `this.inferredTelemetry = null`. -/
def OrchState.reset {ε : Type} (st : OrchState ε) : OrchState ε :=
  { st with sampler := SamplerState.init, hasInferred := false }

/-- The all-`null` "insufficient data" shape: what `infer()` returns on an
empty sample sequence — every score field of every sub-record is `null`. -/
def allNullInferred : Inferred :=
  { agentPresence :=
      { screen_presence_ratio := none, camera_presence_ratio := none
        mic_presence_ratio := none, idle_ratio := none, multitasking_likelihood := none }
    sessionIntegrity :=
      { network_stability_score := none, session_reliability_score := none
        throttling_likelihood := none, device_stability_score := none }
    riskScores :=
      { agent_presence_score := none, session_integrity_score := none
        network_reliability_score := none, composite_agent_risk_score := none
        risk_level := none } }

/-!
## Exporter (`SchemaExporter`, src/system-trace/schema-exporter.js)

A flat record is an association list of column name to cell value, in the
source's insertion order.  Cell values are JavaScript primitives as stored in
the row object: `null`, a boolean, a number, or a string.  The exporter's
inputs (the destructured `meta`/`gov`/`device`/... objects) are modelled as
structures of cells; a `?.`-chain such as `display.screenResolution?.width`
is collapsed into the single input cell `display.screenResolution_width`, and
the `Array.isArray(...) ? languages.join(',') : ...` conditional for
`languages` is collapsed into the input cell `browser.languages_joined` —
both describe where a populated value comes from, which the column-structure
claims do not inspect.  The `storage` destructuring in the source is dead
(never read) and is omitted.
-/

/-- A JavaScript primitive as stored in a flat-record cell. -/
inductive Cell where
  | null : Cell
  | b : Bool → Cell
  | n : ℚ → Cell
  | s : String → Cell
deriving DecidableEq, Repr

/-- JavaScript truthiness of a cell (`null`, `false`, `0` and `""` are
falsy). -/
def Cell.truthy : Cell → Bool
  | .null => false
  | .b v => v
  | .n q => decide (q ≠ 0)
  | .s v => decide (v ≠ "")

/-- JavaScript `x || d` on cells. -/
def Cell.orElse (c d : Cell) : Cell := if c.truthy then c else d

/-- JavaScript `x || d` where `x` may additionally be `undefined`
(an absent property of a possibly-empty destructured object). -/
def orUndef (o : Option Cell) (d : Cell) : Cell := (o.getD Cell.null).orElse d

/-- JavaScript `x || null` for a number-or-null field (`0` is falsy, so a
zero reading is also emitted as `null`). -/
def ofNumOrNull (o : Option ℚ) : Cell :=
  match o with
  | some q => if q = 0 then Cell.null else Cell.n q
  | none => Cell.null

/-- JavaScript `a || b` on two number-or-null values
(`network.downlinkSpeed || network.download_speed_mbps`). -/
def jsOrOpt (a b : Option ℚ) : Option ℚ := if a.getD 0 = 0 then b else a

/-- Embeds `SchemaExporter.detectConnectionTier` (schema-exporter.js lines
543-549) on number-or-null arguments (`!x` is true for `null` and `0`). -/
def detectConnectionTier (rtt downlink : Option ℚ) : Cell :=
  if rtt.getD 0 = 0 ∨ downlink.getD 0 = 0 then Cell.null
  else if 150 ≤ rtt.getD 0 ∨ downlink.getD 0 ≤ 2 then Cell.s "C"
  else if 100 ≤ rtt.getD 0 ∨ downlink.getD 0 ≤ 5 then Cell.s "B"
  else Cell.s "A"

/-- Embeds `SchemaExporter.isSlowConnection` (schema-exporter.js lines
554-557). -/
def isSlowConnection (rtt downlink : Option ℚ) : Bool :=
  if rtt.getD 0 = 0 ∨ downlink.getD 0 = 0 then false
  else decide (150 ≤ rtt.getD 0 ∨ downlink.getD 0 ≤ 2)

/-- Input cells the exporter reads from the destructured `activity` object. -/
structure GActivity where
  backgroundTime : Cell
  focusLossCount : Cell
  foregroundTime : Cell
  idleDuration : Cell
  tabVisibility : Cell
  windowHasFocus : Cell

/-- Input cells the exporter reads from the destructured `advancedDevices` object. -/
structure GAdvancedDevices where
  advanced_device_type : Cell
  advanced_device_used : Cell
  device_disconnect_count : Cell
  device_interaction_count : Cell
  device_product_id : Cell
  device_vendor_id : Cell

/-- Input cells the exporter reads from the destructured `agentPresence` object. -/
structure GAgentPresence where
  camera_presence_ratio : Option Cell
  idle_ratio : Option Cell
  mic_presence_ratio : Option Cell
  multitasking_likelihood : Option Cell
  screen_presence_ratio : Option Cell

/-- Input cells the exporter reads from the destructured `browser` object. -/
structure GBrowser where
  browserVersion_major : Cell
  browserVersion_name : Cell
  doNotTrack : Cell
  javascriptEngine : Cell
  language : Cell
  languages_joined : Cell
  pdfViewer : Cell
  renderingEngine : Cell
  timezoneOffset : Cell
  uaCH_architecture : Cell
  userAgent : Cell

/-- Input cells the exporter reads from the destructured `camera` object. -/
structure GCamera where
  camera_active : Cell
  camera_active_ratio : Cell
  camera_fps : Cell
  camera_fps_drops : Cell
  camera_freeze_events : Cell
  camera_permission : Cell
  camera_switch_count : Cell
  virtual_camera_suspected : Cell

/-- Input cells the exporter reads from the destructured `clipboard` object. -/
structure GClipboard where
  aborted_upload_count : Cell
  clipboard_permission : Cell
  copy_event_count : Cell
  file_checksum : Cell
  file_reuse_detected : Cell
  file_size_kb : Cell
  file_type : Cell
  file_upload_count : Cell
  paste_event_count : Cell

/-- Input cells the exporter reads from the destructured `device` object. -/
structure GDevice where
  architecture : Cell
  cpuLogicalCores : Cell
  deviceClass : Cell
  deviceMemory : Cell
  gpuRenderer : Cell
  gpuVendor : Cell
  maxTouchPoints : Cell
  platform : Cell
  touchSupport : Cell

/-- Input cells the exporter reads from the destructured `display` object. -/
structure GDisplay where
  availableScreenSize_height : Cell
  availableScreenSize_width : Cell
  colorDepth : Cell
  colorGamut : Cell
  hdrSupport : Cell
  pixelRatio : Cell
  screenResolution_height : Cell
  screenResolution_width : Cell

/-- Input cells the exporter reads from the destructured `env` object. -/
structure GEnv where
  architecture : Cell
  browser_name : Cell
  browser_version : Cell
  device_class : Cell
  gpu_renderer : Cell
  hardware_acceleration : Option Cell
  platform : Cell
  renderer_path : Cell

/-- Input cells the exporter reads from the destructured `gov` object. -/
structure GGov where
  audit_reference_id : Cell
  consent_timestamp : Cell
  consent_version : Cell
  data_retention_policy : Cell

/-- Input cells the exporter reads from the destructured `host` object. -/
structure GHost where
  batterySupport : Bool

/-- Input cells the exporter reads from the destructured `location` object. -/
structure GLocation where
  geofence_violation : Cell
  latitude : Cell
  location_accuracy_m : Cell
  location_change_count : Cell
  location_permission : Cell
  longitude : Cell
  movement_speed_mps : Cell

/-- Input cells the exporter reads from the destructured `memory` object. -/
structure GMemory where
  heapGrowthMB : Cell
  jsHeapLimitMB : Cell
  jsHeapTotalMB : Cell
  jsHeapUsedMB : Cell

/-- Input cells the exporter reads from the destructured `meta` object. -/
structure GMeta where
  agent_id : Cell
  app_name : Cell
  app_version : Cell
  collected_at : Cell
  environment : Cell
  page_url : Cell
  record_id : Cell
  record_type : Cell
  session_id : Cell
  user_id : Cell

/-- Input cells the exporter reads from the destructured `mic` object. -/
structure GMic where
  background_noise_level : Cell
  mic_active : Cell
  mic_activity_ratio : Cell
  mic_mute_toggle_count : Cell
  mic_permission : Cell
  mic_silence_ratio : Cell
  mic_volume_avg : Cell

/-- Input cells the exporter reads from the destructured `net` object. -/
structure GNet where
  avg_status_code : Cell
  avg_total_ms : Cell
  avg_transfer_size_kb : Cell
  cache_hit_ratio : Cell
  total_requests : Cell

/-- Input cells the exporter reads from the destructured `network` object. -/
structure GNetwork where
  downlinkSpeed : Option ℚ
  download_speed_mbps : Option ℚ
  effectiveConnectionType : Cell
  networkChangeCount : Cell
  online : Cell
  rtt : Option ℚ
  rttJitter : Cell
  saveData : Cell
  speed_test_method : Cell
  speed_test_timestamp : Cell
  upload_speed_mbps : Cell

/-- Input cells the exporter reads from the destructured `perf` object. -/
structure GPerf where
  CLS : Cell
  DOMContentLoaded_ms : Cell
  FCP_ms : Cell
  INP_ms : Cell
  LCP_ms : Cell
  Load_ms : Cell
  TTFB_ms : Cell
  time_to_interactive_ms : Cell

/-- Input cells the exporter reads from the destructured `performance` object. -/
structure GPerformance where
  eventLoopDelay : Cell
  longTasksCount : Cell
  timerThrottlingDetected : Cell

/-- Input cells the exporter reads from the destructured `permissions` object. -/
structure GPermissions where
  advanced_device_capable : Cell
  camera_available : Cell
  camera_device_count : Cell
  location_capable : Cell
  microphone_available : Cell
  microphone_device_count : Cell

/-- Input cells the exporter reads from the destructured `prod` object. -/
structure GProd where
  click_count : Cell
  dwell_time_sec : Cell
  latest_conversion_event : Cell
  latest_conversion_value : Cell
  latest_feature_used : Cell
  scroll_depth_pct : Cell
  session_duration_sec : Cell
  session_end : Cell
  session_start : Cell
  tenant_id : Cell
  user_id_hash : Cell

/-- Input cells the exporter reads from the destructured `riskScores` object. -/
structure GRiskScores where
  agent_presence_score : Option Cell
  composite_agent_risk_score : Option Cell
  network_reliability_score : Option Cell
  risk_level : Option Cell
  session_integrity_score : Option Cell

/-- Input cells the exporter reads from the destructured `screenShare` object. -/
structure GScreenShare where
  screen_focus_loss_count : Cell
  screen_freeze_events : Cell
  screen_share_active : Cell
  screen_share_fps : Cell
  screen_share_interruptions : Cell
  screen_share_permission : Cell
  screen_share_resolution : Cell
  screen_share_type : Cell

/-- Input cells the exporter reads from the destructured `sessionIntegrity` object. -/
structure GSessionIntegrity where
  device_stability_score : Option Cell
  network_stability_score : Option Cell
  session_reliability_score : Option Cell
  throttling_likelihood : Option Cell

/-- Input cells the exporter reads from the destructured `webAPIs` object. -/
structure GWebAPIs where
  audioContext : Cell
  backgroundSync : Cell
  clipboardAPI : Cell
  drmSupported : Cell
  fileSystemAccess : Cell
  indexedDB : Cell
  mediaDevices : Cell
  offscreenCanvas : Cell
  paymentRequest : Cell
  pushAPI : Cell
  serviceWorkers : Cell
  sharedArrayBuffer : Cell
  webAuthn : Cell
  webassembly : Cell
  webgl : Cell
  webgl2 : Cell
  webgpu : Cell
  webrtc : Cell

/-- Everything `exportStatic` reads. -/
structure StaticInputs where
  meta : GMeta
  gov : GGov
  device : GDevice
  display : GDisplay
  browser : GBrowser
  webAPIs : GWebAPIs
  permissions : GPermissions
  host : GHost

/-- Everything `exportContinuous` reads. -/
structure ContInputs where
  meta : GMeta
  gov : GGov
  device : GDevice
  display : GDisplay
  browser : GBrowser
  webAPIs : GWebAPIs
  permissions : GPermissions
  host : GHost
  network : GNetwork
  memory : GMemory
  performance : GPerformance
  activity : GActivity
  camera : GCamera
  mic : GMic
  screenShare : GScreenShare
  location : GLocation
  clipboard : GClipboard
  advancedDevices : GAdvancedDevices
  agentPresence : GAgentPresence
  sessionIntegrity : GSessionIntegrity
  riskScores : GRiskScores
  perf : GPerf
  net : GNet
  prod : GProd
  env : GEnv

/-- Embeds `SchemaExporter.getColumnHeaders` (schema-exporter.js lines
486-512): the fixed, ordered column list. -/
def getColumnHeaders : List String := [
  "record_id", "session_id", "user_id", "agent_id", "record_type", "collected_at",
  "page_url", "app_name", "app_version", "environment", "platform", "architecture",
  "cpu_cores", "device_memory_gb", "gpu_vendor", "gpu_renderer", "device_class", "touch_supported",
  "max_touch_points", "battery_supported", "screen_width", "screen_height", "avail_width", "avail_height",
  "pixel_ratio", "color_depth", "color_gamut", "hdr_supported", "browser_name", "browser_version",
  "rendering_engine", "js_engine_inferred", "user_agent", "ua_arch", "language", "languages",
  "timezone_offset_minutes", "do_not_track", "pdf_viewer_enabled", "api_webgl", "api_webgl2", "api_webgpu",
  "api_webrtc", "api_wasm", "api_service_worker", "api_push", "api_bg_sync", "api_media_devices",
  "api_clipboard", "api_webauthn", "api_payment_request", "api_file_system_access", "api_offscreen_canvas", "api_audio_context",
  "api_indexeddb", "api_shared_array_buffer", "api_drm_supported", "camera_available", "camera_device_count", "microphone_available",
  "microphone_device_count", "location_capable", "advanced_device_capable", "online", "effective_connection_type", "rtt_ms",
  "downlink_mbps", "rtt_jitter_ms", "network_change_count", "save_data_enabled", "download_speed_mbps", "upload_speed_mbps",
  "speed_test_method", "speed_test_timestamp", "connection_tier", "slow_connection_detected", "js_heap_limit_mb", "js_heap_total_mb",
  "js_heap_used_mb", "heap_growth_mb", "event_loop_delay_ms", "long_task_count", "timer_throttling_detected", "LCP_ms",
  "INP_ms", "CLS", "TTFB_ms", "FCP_ms", "DOMContentLoaded_ms", "Load_ms",
  "time_to_interactive_ms", "hardware_acceleration", "renderer_path", "resource_timing_avg_total_ms", "resource_timing_avg_transfer_kb", "resource_timing_total_requests",
  "resource_timing_cache_hit_ratio", "resource_timing_avg_status_code", "tab_visibility", "window_has_focus", "foreground_time_sec", "background_time_sec",
  "idle_time_sec", "focus_loss_count", "user_id_hash", "tenant_id", "session_start", "session_end",
  "session_duration_sec", "feature_used", "conversion_event", "conversion_value", "dwell_time_sec", "scroll_depth_pct",
  "click_count", "camera_permission", "camera_active", "camera_active_ratio", "camera_fps", "camera_fps_drops",
  "camera_freeze_events", "camera_switch_count", "virtual_camera_suspected", "mic_permission", "mic_active", "mic_activity_ratio",
  "mic_volume_avg", "mic_silence_ratio", "background_noise_level", "mic_mute_toggle_count", "screen_share_permission", "screen_share_active",
  "screen_share_type", "screen_share_resolution", "screen_share_fps", "screen_freeze_events", "screen_focus_loss_count", "screen_share_interruptions",
  "location_permission", "latitude", "longitude", "location_accuracy_m", "movement_speed_mps", "location_change_count",
  "geofence_violation", "clipboard_permission", "copy_event_count", "paste_event_count", "file_upload_count", "file_type",
  "file_size_kb", "file_checksum", "file_reuse_detected", "aborted_upload_count", "advanced_device_used", "advanced_device_type",
  "device_vendor_id", "device_product_id", "device_interaction_count", "device_disconnect_count", "screen_presence_ratio", "camera_presence_ratio",
  "mic_presence_ratio", "idle_ratio", "multitasking_likelihood", "network_stability_score", "session_reliability_score", "throttling_likelihood",
  "device_stability_score", "agent_presence_score", "session_integrity_score", "network_reliability_score", "composite_agent_risk_score", "risk_level",
  "consent_version", "consent_timestamp", "data_retention_policy", "audit_reference_id"]

/-- Embeds `SchemaExporter.exportStatic` (schema-exporter.js lines 14-222):
the static flat record, as the ordered (column, value) list of the returned
object literal.  Continuous-only and inferred-only columns are the literal
`null`s of the source. -/
def exportStatic (inp : StaticInputs) : List (String × Cell) :=
  [
    ("record_id", inp.meta.record_id),
    ("session_id", inp.meta.session_id),
    ("user_id", inp.meta.user_id),
    ("agent_id", inp.meta.agent_id),
    ("record_type", inp.meta.record_type),
    ("collected_at", inp.meta.collected_at),
    ("page_url", inp.meta.page_url),
    ("app_name", inp.meta.app_name),
    ("app_version", inp.meta.app_version),
    ("environment", inp.meta.environment),
    ("platform", (inp.device.platform).orElse Cell.null),
    ("architecture", (inp.device.architecture).orElse Cell.null),
    ("cpu_cores", (inp.device.cpuLogicalCores).orElse Cell.null),
    ("device_memory_gb", (inp.device.deviceMemory).orElse Cell.null),
    ("gpu_vendor", (inp.device.gpuVendor).orElse Cell.null),
    ("gpu_renderer", (inp.device.gpuRenderer).orElse Cell.null),
    ("device_class", (inp.device.deviceClass).orElse Cell.null),
    ("touch_supported", (inp.device.touchSupport).orElse (Cell.b false)),
    ("max_touch_points", (inp.device.maxTouchPoints).orElse (Cell.n 0)),
    ("battery_supported", Cell.b inp.host.batterySupport),
    ("screen_width", (inp.display.screenResolution_width).orElse Cell.null),
    ("screen_height", (inp.display.screenResolution_height).orElse Cell.null),
    ("avail_width", (inp.display.availableScreenSize_width).orElse Cell.null),
    ("avail_height", (inp.display.availableScreenSize_height).orElse Cell.null),
    ("pixel_ratio", (inp.display.pixelRatio).orElse Cell.null),
    ("color_depth", (inp.display.colorDepth).orElse Cell.null),
    ("color_gamut", (inp.display.colorGamut).orElse Cell.null),
    ("hdr_supported", (inp.display.hdrSupport).orElse (Cell.b false)),
    ("browser_name", (inp.browser.browserVersion_name).orElse Cell.null),
    ("browser_version", (inp.browser.browserVersion_major).orElse Cell.null),
    ("rendering_engine", (inp.browser.renderingEngine).orElse Cell.null),
    ("js_engine_inferred", (inp.browser.javascriptEngine).orElse Cell.null),
    ("user_agent", (inp.browser.userAgent).orElse Cell.null),
    ("ua_arch", (inp.browser.uaCH_architecture).orElse Cell.null),
    ("language", (inp.browser.language).orElse Cell.null),
    ("languages", inp.browser.languages_joined),
    ("timezone_offset_minutes", (inp.browser.timezoneOffset).orElse Cell.null),
    ("do_not_track", (inp.browser.doNotTrack).orElse Cell.null),
    ("pdf_viewer_enabled", (inp.browser.pdfViewer).orElse (Cell.b false)),
    ("api_webgl", (inp.webAPIs.webgl).orElse (Cell.b false)),
    ("api_webgl2", (inp.webAPIs.webgl2).orElse (Cell.b false)),
    ("api_webgpu", (inp.webAPIs.webgpu).orElse (Cell.b false)),
    ("api_webrtc", (inp.webAPIs.webrtc).orElse (Cell.b false)),
    ("api_wasm", (inp.webAPIs.webassembly).orElse (Cell.b false)),
    ("api_service_worker", (inp.webAPIs.serviceWorkers).orElse (Cell.b false)),
    ("api_push", (inp.webAPIs.pushAPI).orElse (Cell.b false)),
    ("api_bg_sync", (inp.webAPIs.backgroundSync).orElse (Cell.b false)),
    ("api_media_devices", (inp.webAPIs.mediaDevices).orElse (Cell.b false)),
    ("api_clipboard", (inp.webAPIs.clipboardAPI).orElse (Cell.b false)),
    ("api_webauthn", (inp.webAPIs.webAuthn).orElse (Cell.b false)),
    ("api_payment_request", (inp.webAPIs.paymentRequest).orElse (Cell.b false)),
    ("api_file_system_access", (inp.webAPIs.fileSystemAccess).orElse (Cell.b false)),
    ("api_offscreen_canvas", (inp.webAPIs.offscreenCanvas).orElse (Cell.b false)),
    ("api_audio_context", (inp.webAPIs.audioContext).orElse (Cell.b false)),
    ("api_indexeddb", (inp.webAPIs.indexedDB).orElse (Cell.b false)),
    ("api_shared_array_buffer", (inp.webAPIs.sharedArrayBuffer).orElse (Cell.b false)),
    ("api_drm_supported", (inp.webAPIs.drmSupported).orElse (Cell.b false)),
    ("camera_available", (inp.permissions.camera_available).orElse (Cell.b false)),
    ("camera_device_count", (inp.permissions.camera_device_count).orElse (Cell.n 0)),
    ("microphone_available", (inp.permissions.microphone_available).orElse (Cell.b false)),
    ("microphone_device_count", (inp.permissions.microphone_device_count).orElse (Cell.n 0)),
    ("location_capable", (inp.permissions.location_capable).orElse (Cell.b false)),
    ("advanced_device_capable", (inp.permissions.advanced_device_capable).orElse (Cell.b false)),
    ("online", Cell.null),
    ("effective_connection_type", Cell.null),
    ("rtt_ms", Cell.null),
    ("downlink_mbps", Cell.null),
    ("rtt_jitter_ms", Cell.null),
    ("network_change_count", Cell.null),
    ("save_data_enabled", Cell.null),
    ("download_speed_mbps", Cell.null),
    ("upload_speed_mbps", Cell.null),
    ("speed_test_method", Cell.null),
    ("speed_test_timestamp", Cell.null),
    ("connection_tier", Cell.null),
    ("slow_connection_detected", Cell.null),
    ("js_heap_limit_mb", Cell.null),
    ("js_heap_total_mb", Cell.null),
    ("js_heap_used_mb", Cell.null),
    ("heap_growth_mb", Cell.null),
    ("event_loop_delay_ms", Cell.null),
    ("long_task_count", Cell.null),
    ("timer_throttling_detected", Cell.null),
    ("LCP_ms", Cell.null),
    ("INP_ms", Cell.null),
    ("CLS", Cell.null),
    ("TTFB_ms", Cell.null),
    ("FCP_ms", Cell.null),
    ("DOMContentLoaded_ms", Cell.null),
    ("Load_ms", Cell.null),
    ("time_to_interactive_ms", Cell.null),
    ("hardware_acceleration", Cell.null),
    ("renderer_path", Cell.null),
    ("resource_timing_avg_total_ms", Cell.null),
    ("resource_timing_avg_transfer_kb", Cell.null),
    ("resource_timing_total_requests", Cell.null),
    ("resource_timing_cache_hit_ratio", Cell.null),
    ("resource_timing_avg_status_code", Cell.null),
    ("tab_visibility", Cell.null),
    ("window_has_focus", Cell.null),
    ("foreground_time_sec", Cell.null),
    ("background_time_sec", Cell.null),
    ("idle_time_sec", Cell.null),
    ("focus_loss_count", Cell.null),
    ("user_id_hash", Cell.null),
    ("tenant_id", Cell.null),
    ("session_start", Cell.null),
    ("session_end", Cell.null),
    ("session_duration_sec", Cell.null),
    ("feature_used", Cell.null),
    ("conversion_event", Cell.null),
    ("conversion_value", Cell.null),
    ("dwell_time_sec", Cell.null),
    ("scroll_depth_pct", Cell.null),
    ("click_count", Cell.null),
    ("camera_permission", Cell.null),
    ("camera_active", Cell.null),
    ("camera_active_ratio", Cell.null),
    ("camera_fps", Cell.null),
    ("camera_fps_drops", Cell.null),
    ("camera_freeze_events", Cell.null),
    ("camera_switch_count", Cell.null),
    ("virtual_camera_suspected", Cell.null),
    ("mic_permission", Cell.null),
    ("mic_active", Cell.null),
    ("mic_activity_ratio", Cell.null),
    ("mic_volume_avg", Cell.null),
    ("mic_silence_ratio", Cell.null),
    ("background_noise_level", Cell.null),
    ("mic_mute_toggle_count", Cell.null),
    ("screen_share_permission", Cell.null),
    ("screen_share_active", Cell.null),
    ("screen_share_type", Cell.null),
    ("screen_share_resolution", Cell.null),
    ("screen_share_fps", Cell.null),
    ("screen_freeze_events", Cell.null),
    ("screen_focus_loss_count", Cell.null),
    ("screen_share_interruptions", Cell.null),
    ("location_permission", Cell.null),
    ("latitude", Cell.null),
    ("longitude", Cell.null),
    ("location_accuracy_m", Cell.null),
    ("movement_speed_mps", Cell.null),
    ("location_change_count", Cell.null),
    ("geofence_violation", Cell.null),
    ("clipboard_permission", Cell.null),
    ("copy_event_count", Cell.null),
    ("paste_event_count", Cell.null),
    ("file_upload_count", Cell.null),
    ("file_type", Cell.null),
    ("file_size_kb", Cell.null),
    ("file_checksum", Cell.null),
    ("file_reuse_detected", Cell.null),
    ("aborted_upload_count", Cell.null),
    ("advanced_device_used", Cell.null),
    ("advanced_device_type", Cell.null),
    ("device_vendor_id", Cell.null),
    ("device_product_id", Cell.null),
    ("device_interaction_count", Cell.null),
    ("device_disconnect_count", Cell.null),
    ("screen_presence_ratio", Cell.null),
    ("camera_presence_ratio", Cell.null),
    ("mic_presence_ratio", Cell.null),
    ("idle_ratio", Cell.null),
    ("multitasking_likelihood", Cell.null),
    ("network_stability_score", Cell.null),
    ("session_reliability_score", Cell.null),
    ("throttling_likelihood", Cell.null),
    ("device_stability_score", Cell.null),
    ("agent_presence_score", Cell.null),
    ("session_integrity_score", Cell.null),
    ("network_reliability_score", Cell.null),
    ("composite_agent_risk_score", Cell.null),
    ("risk_level", Cell.null),
    ("consent_version", inp.gov.consent_version),
    ("consent_timestamp", inp.gov.consent_timestamp),
    ("data_retention_policy", inp.gov.data_retention_policy),
    ("audit_reference_id", inp.gov.audit_reference_id)]

/-- Embeds `SchemaExporter.exportContinuous` (schema-exporter.js lines
227-481): the continuous flat record. -/
def exportContinuous (inp : ContInputs) : List (String × Cell) :=
  [
    ("record_id", inp.meta.record_id),
    ("session_id", inp.meta.session_id),
    ("user_id", inp.meta.user_id),
    ("agent_id", inp.meta.agent_id),
    ("record_type", inp.meta.record_type),
    ("collected_at", inp.meta.collected_at),
    ("page_url", inp.meta.page_url),
    ("app_name", inp.meta.app_name),
    ("app_version", inp.meta.app_version),
    ("environment", inp.meta.environment),
    ("platform", (inp.env.platform).orElse ((inp.device.platform).orElse Cell.null)),
    ("architecture", (inp.env.architecture).orElse ((inp.device.architecture).orElse Cell.null)),
    ("cpu_cores", (inp.device.cpuLogicalCores).orElse Cell.null),
    ("device_memory_gb", (inp.device.deviceMemory).orElse Cell.null),
    ("gpu_vendor", (inp.device.gpuVendor).orElse Cell.null),
    ("gpu_renderer", (inp.env.gpu_renderer).orElse ((inp.device.gpuRenderer).orElse Cell.null)),
    ("device_class", (inp.env.device_class).orElse ((inp.device.deviceClass).orElse Cell.null)),
    ("touch_supported", (inp.device.touchSupport).orElse (Cell.b false)),
    ("max_touch_points", (inp.device.maxTouchPoints).orElse (Cell.n 0)),
    ("battery_supported", Cell.b inp.host.batterySupport),
    ("screen_width", (inp.display.screenResolution_width).orElse Cell.null),
    ("screen_height", (inp.display.screenResolution_height).orElse Cell.null),
    ("avail_width", (inp.display.availableScreenSize_width).orElse Cell.null),
    ("avail_height", (inp.display.availableScreenSize_height).orElse Cell.null),
    ("pixel_ratio", (inp.display.pixelRatio).orElse Cell.null),
    ("color_depth", (inp.display.colorDepth).orElse Cell.null),
    ("color_gamut", (inp.display.colorGamut).orElse Cell.null),
    ("hdr_supported", (inp.display.hdrSupport).orElse (Cell.b false)),
    ("browser_name", (inp.env.browser_name).orElse ((inp.browser.browserVersion_name).orElse Cell.null)),
    ("browser_version", (inp.env.browser_version).orElse ((inp.browser.browserVersion_major).orElse Cell.null)),
    ("rendering_engine", (inp.browser.renderingEngine).orElse Cell.null),
    ("js_engine_inferred", (inp.browser.javascriptEngine).orElse Cell.null),
    ("user_agent", (inp.browser.userAgent).orElse Cell.null),
    ("ua_arch", (inp.browser.uaCH_architecture).orElse Cell.null),
    ("language", (inp.browser.language).orElse Cell.null),
    ("languages", inp.browser.languages_joined),
    ("timezone_offset_minutes", (inp.browser.timezoneOffset).orElse Cell.null),
    ("do_not_track", (inp.browser.doNotTrack).orElse Cell.null),
    ("pdf_viewer_enabled", (inp.browser.pdfViewer).orElse (Cell.b false)),
    ("api_webgl", (inp.webAPIs.webgl).orElse (Cell.b false)),
    ("api_webgl2", (inp.webAPIs.webgl2).orElse (Cell.b false)),
    ("api_webgpu", (inp.webAPIs.webgpu).orElse (Cell.b false)),
    ("api_webrtc", (inp.webAPIs.webrtc).orElse (Cell.b false)),
    ("api_wasm", (inp.webAPIs.webassembly).orElse (Cell.b false)),
    ("api_service_worker", (inp.webAPIs.serviceWorkers).orElse (Cell.b false)),
    ("api_push", (inp.webAPIs.pushAPI).orElse (Cell.b false)),
    ("api_bg_sync", (inp.webAPIs.backgroundSync).orElse (Cell.b false)),
    ("api_media_devices", (inp.webAPIs.mediaDevices).orElse (Cell.b false)),
    ("api_clipboard", (inp.webAPIs.clipboardAPI).orElse (Cell.b false)),
    ("api_webauthn", (inp.webAPIs.webAuthn).orElse (Cell.b false)),
    ("api_payment_request", (inp.webAPIs.paymentRequest).orElse (Cell.b false)),
    ("api_file_system_access", (inp.webAPIs.fileSystemAccess).orElse (Cell.b false)),
    ("api_offscreen_canvas", (inp.webAPIs.offscreenCanvas).orElse (Cell.b false)),
    ("api_audio_context", (inp.webAPIs.audioContext).orElse (Cell.b false)),
    ("api_indexeddb", (inp.webAPIs.indexedDB).orElse (Cell.b false)),
    ("api_shared_array_buffer", (inp.webAPIs.sharedArrayBuffer).orElse (Cell.b false)),
    ("api_drm_supported", (inp.webAPIs.drmSupported).orElse (Cell.b false)),
    ("camera_available", (inp.permissions.camera_available).orElse (Cell.b false)),
    ("camera_device_count", (inp.permissions.camera_device_count).orElse (Cell.n 0)),
    ("microphone_available", (inp.permissions.microphone_available).orElse (Cell.b false)),
    ("microphone_device_count", (inp.permissions.microphone_device_count).orElse (Cell.n 0)),
    ("location_capable", (inp.permissions.location_capable).orElse (Cell.b false)),
    ("advanced_device_capable", (inp.permissions.advanced_device_capable).orElse (Cell.b false)),
    ("online", (inp.network.online).orElse (Cell.b false)),
    ("effective_connection_type", (inp.network.effectiveConnectionType).orElse Cell.null),
    ("rtt_ms", ofNumOrNull inp.network.rtt),
    ("downlink_mbps", ofNumOrNull inp.network.downlinkSpeed),
    ("rtt_jitter_ms", (inp.network.rttJitter).orElse Cell.null),
    ("network_change_count", (inp.network.networkChangeCount).orElse (Cell.n 0)),
    ("save_data_enabled", (inp.network.saveData).orElse (Cell.b false)),
    ("download_speed_mbps", ofNumOrNull inp.network.download_speed_mbps),
    ("upload_speed_mbps", (inp.network.upload_speed_mbps).orElse Cell.null),
    ("speed_test_method", (inp.network.speed_test_method).orElse Cell.null),
    ("speed_test_timestamp", (inp.network.speed_test_timestamp).orElse Cell.null),
    ("connection_tier", detectConnectionTier inp.network.rtt (jsOrOpt inp.network.downlinkSpeed inp.network.download_speed_mbps)),
    ("slow_connection_detected", Cell.b (isSlowConnection inp.network.rtt (jsOrOpt inp.network.downlinkSpeed inp.network.download_speed_mbps))),
    ("resource_timing_avg_total_ms", (inp.net.avg_total_ms).orElse Cell.null),
    ("resource_timing_avg_transfer_kb", (inp.net.avg_transfer_size_kb).orElse Cell.null),
    ("resource_timing_total_requests", (inp.net.total_requests).orElse Cell.null),
    ("resource_timing_cache_hit_ratio", (inp.net.cache_hit_ratio).orElse Cell.null),
    ("resource_timing_avg_status_code", (inp.net.avg_status_code).orElse Cell.null),
    ("js_heap_limit_mb", (inp.memory.jsHeapLimitMB).orElse Cell.null),
    ("js_heap_total_mb", (inp.memory.jsHeapTotalMB).orElse Cell.null),
    ("js_heap_used_mb", (inp.memory.jsHeapUsedMB).orElse Cell.null),
    ("heap_growth_mb", (inp.memory.heapGrowthMB).orElse Cell.null),
    ("event_loop_delay_ms", (inp.performance.eventLoopDelay).orElse Cell.null),
    ("long_task_count", (inp.performance.longTasksCount).orElse (Cell.n 0)),
    ("timer_throttling_detected", (inp.performance.timerThrottlingDetected).orElse (Cell.b false)),
    ("LCP_ms", (inp.perf.LCP_ms).orElse Cell.null),
    ("INP_ms", (inp.perf.INP_ms).orElse Cell.null),
    ("CLS", (inp.perf.CLS).orElse Cell.null),
    ("TTFB_ms", (inp.perf.TTFB_ms).orElse Cell.null),
    ("FCP_ms", (inp.perf.FCP_ms).orElse Cell.null),
    ("DOMContentLoaded_ms", (inp.perf.DOMContentLoaded_ms).orElse Cell.null),
    ("Load_ms", (inp.perf.Load_ms).orElse Cell.null),
    ("time_to_interactive_ms", (inp.perf.time_to_interactive_ms).orElse Cell.null),
    ("hardware_acceleration", (inp.env.hardware_acceleration).getD Cell.null),
    ("renderer_path", (inp.env.renderer_path).orElse Cell.null),
    ("tab_visibility", (inp.activity.tabVisibility).orElse Cell.null),
    ("window_has_focus", (inp.activity.windowHasFocus).orElse (Cell.b false)),
    ("foreground_time_sec", (inp.activity.foregroundTime).orElse Cell.null),
    ("background_time_sec", (inp.activity.backgroundTime).orElse Cell.null),
    ("idle_time_sec", (inp.activity.idleDuration).orElse Cell.null),
    ("focus_loss_count", (inp.activity.focusLossCount).orElse (Cell.n 0)),
    ("user_id_hash", (inp.prod.user_id_hash).orElse Cell.null),
    ("tenant_id", (inp.prod.tenant_id).orElse Cell.null),
    ("session_start", (inp.prod.session_start).orElse Cell.null),
    ("session_end", (inp.prod.session_end).orElse Cell.null),
    ("session_duration_sec", (inp.prod.session_duration_sec).orElse Cell.null),
    ("feature_used", (inp.prod.latest_feature_used).orElse Cell.null),
    ("conversion_event", (inp.prod.latest_conversion_event).orElse Cell.null),
    ("conversion_value", (inp.prod.latest_conversion_value).orElse Cell.null),
    ("dwell_time_sec", (inp.prod.dwell_time_sec).orElse Cell.null),
    ("scroll_depth_pct", (inp.prod.scroll_depth_pct).orElse Cell.null),
    ("click_count", (inp.prod.click_count).orElse Cell.null),
    ("camera_permission", (inp.camera.camera_permission).orElse Cell.null),
    ("camera_active", (inp.camera.camera_active).orElse (Cell.b false)),
    ("camera_active_ratio", (inp.camera.camera_active_ratio).orElse Cell.null),
    ("camera_fps", (inp.camera.camera_fps).orElse Cell.null),
    ("camera_fps_drops", (inp.camera.camera_fps_drops).orElse Cell.null),
    ("camera_freeze_events", (inp.camera.camera_freeze_events).orElse Cell.null),
    ("camera_switch_count", (inp.camera.camera_switch_count).orElse Cell.null),
    ("virtual_camera_suspected", (inp.camera.virtual_camera_suspected).orElse (Cell.b false)),
    ("mic_permission", (inp.mic.mic_permission).orElse Cell.null),
    ("mic_active", (inp.mic.mic_active).orElse (Cell.b false)),
    ("mic_activity_ratio", (inp.mic.mic_activity_ratio).orElse Cell.null),
    ("mic_volume_avg", (inp.mic.mic_volume_avg).orElse Cell.null),
    ("mic_silence_ratio", (inp.mic.mic_silence_ratio).orElse Cell.null),
    ("background_noise_level", (inp.mic.background_noise_level).orElse Cell.null),
    ("mic_mute_toggle_count", (inp.mic.mic_mute_toggle_count).orElse Cell.null),
    ("screen_share_permission", (inp.screenShare.screen_share_permission).orElse Cell.null),
    ("screen_share_active", (inp.screenShare.screen_share_active).orElse (Cell.b false)),
    ("screen_share_type", (inp.screenShare.screen_share_type).orElse Cell.null),
    ("screen_share_resolution", (inp.screenShare.screen_share_resolution).orElse Cell.null),
    ("screen_share_fps", (inp.screenShare.screen_share_fps).orElse Cell.null),
    ("screen_freeze_events", (inp.screenShare.screen_freeze_events).orElse Cell.null),
    ("screen_focus_loss_count", (inp.screenShare.screen_focus_loss_count).orElse Cell.null),
    ("screen_share_interruptions", (inp.screenShare.screen_share_interruptions).orElse Cell.null),
    ("location_permission", (inp.location.location_permission).orElse Cell.null),
    ("latitude", (inp.location.latitude).orElse Cell.null),
    ("longitude", (inp.location.longitude).orElse Cell.null),
    ("location_accuracy_m", (inp.location.location_accuracy_m).orElse Cell.null),
    ("movement_speed_mps", (inp.location.movement_speed_mps).orElse Cell.null),
    ("location_change_count", (inp.location.location_change_count).orElse Cell.null),
    ("geofence_violation", (inp.location.geofence_violation).orElse (Cell.b false)),
    ("clipboard_permission", (inp.clipboard.clipboard_permission).orElse Cell.null),
    ("copy_event_count", (inp.clipboard.copy_event_count).orElse Cell.null),
    ("paste_event_count", (inp.clipboard.paste_event_count).orElse Cell.null),
    ("file_upload_count", (inp.clipboard.file_upload_count).orElse Cell.null),
    ("file_type", (inp.clipboard.file_type).orElse Cell.null),
    ("file_size_kb", (inp.clipboard.file_size_kb).orElse Cell.null),
    ("file_checksum", (inp.clipboard.file_checksum).orElse Cell.null),
    ("file_reuse_detected", (inp.clipboard.file_reuse_detected).orElse (Cell.b false)),
    ("aborted_upload_count", (inp.clipboard.aborted_upload_count).orElse Cell.null),
    ("advanced_device_used", (inp.advancedDevices.advanced_device_used).orElse (Cell.b false)),
    ("advanced_device_type", (inp.advancedDevices.advanced_device_type).orElse Cell.null),
    ("device_vendor_id", (inp.advancedDevices.device_vendor_id).orElse Cell.null),
    ("device_product_id", (inp.advancedDevices.device_product_id).orElse Cell.null),
    ("device_interaction_count", (inp.advancedDevices.device_interaction_count).orElse Cell.null),
    ("device_disconnect_count", (inp.advancedDevices.device_disconnect_count).orElse Cell.null),
    ("screen_presence_ratio", (inp.agentPresence.screen_presence_ratio).getD Cell.null),
    ("camera_presence_ratio", (inp.agentPresence.camera_presence_ratio).getD Cell.null),
    ("mic_presence_ratio", (inp.agentPresence.mic_presence_ratio).getD Cell.null),
    ("idle_ratio", (inp.agentPresence.idle_ratio).getD Cell.null),
    ("multitasking_likelihood", orUndef inp.agentPresence.multitasking_likelihood Cell.null),
    ("network_stability_score", (inp.sessionIntegrity.network_stability_score).getD Cell.null),
    ("session_reliability_score", (inp.sessionIntegrity.session_reliability_score).getD Cell.null),
    ("throttling_likelihood", orUndef inp.sessionIntegrity.throttling_likelihood Cell.null),
    ("device_stability_score", (inp.sessionIntegrity.device_stability_score).getD Cell.null),
    ("agent_presence_score", (inp.riskScores.agent_presence_score).getD Cell.null),
    ("session_integrity_score", (inp.riskScores.session_integrity_score).getD Cell.null),
    ("network_reliability_score", (inp.riskScores.network_reliability_score).getD Cell.null),
    ("composite_agent_risk_score", (inp.riskScores.composite_agent_risk_score).getD Cell.null),
    ("risk_level", orUndef inp.riskScores.risk_level Cell.null),
    ("consent_version", inp.gov.consent_version),
    ("consent_timestamp", inp.gov.consent_timestamp),
    ("data_retention_policy", inp.gov.data_retention_policy),
    ("audit_reference_id", inp.gov.audit_reference_id)]

/-- JavaScript `row[header]`: association-list lookup; an absent key is
`undefined`, which the CSV renderer treats like `null`. -/
def lookupCell (row : List (String × Cell)) (h : String) : Cell :=
  ((row.find? (fun p => p.1 = h)).map Prod.snd).getD Cell.null

/-- One CSV cell (schema-exporter.js lines 522-529): `null`/`undefined`
become the empty string; a string containing the delimiter is quoted with
internal quotes doubled; other values are stringified. -/
def csvCell : Cell → String
  | Cell.null => ""
  | Cell.s v => if v.contains ',' then "\"" ++ v.replace "\"" "\"\"" ++ "\"" else v
  | Cell.b true => "true"
  | Cell.b false => "false"
  | Cell.n q => toString q

/-- Embeds `SchemaExporter.exportToCSV` (schema-exporter.js lines 517-534):
the header row first, then one line per record, each rendered by mapping the
HEADER list over the record (`headers.map(header => row[header])`) and
joining with commas. -/
def exportToCSV (rows : List (List (String × Cell))) : List String :=
  let headers := getColumnHeaders
  (String.intercalate "," headers) ::
    rows.map (fun row =>
      String.intercalate "," (headers.map (fun h => csvCell (lookupCell row h))))


/-!
## Theorems

Claim-level theorems, one per claim, preceded by shared helper lemmas.
-/

/-- Spec-side composite formula (spec.md §4.2): `round(0.4×presence_score +
0.3×reliability_score + 0.3×stability_score)`. -/
def specComposite (p r s : ℚ) : ℚ := jsRound (4/10 * p + 3/10 * r + 3/10 * s)

/-- Spec-side risk breakpoints (spec.md §4.2): composite `≥ 80 → "Low"`,
`≥ 60 → "Medium"`, `≥ 40 → "High"`, else `"Critical"`. -/
def specRiskLevel (c : ℚ) : String :=
  if 80 ≤ c then "Low" else if 60 ≤ c then "Medium" else if 40 ≤ c then "High" else "Critical"

/-- The numeric contribution of a (possibly `null` or `NaN`) stability score
to the composite: the JavaScript `x || 0` coercion reads `null` and `NaN`
as `0`. -/
def stabilityAsNumber : Option JSNum → ℚ
  | some (.val q) => q
  | _ => 0


/-- One timer callback invocation of the orchestrator-wrapped `collectSample`
(telemetry.js lines 78-83) when sub-readings may throw: the exception thrown
by `originalCollect()` propagates before `onSampleCollected` runs, so no
callback fires and no report is emitted; the event loop swallows it at the
task boundary. -/
def orchTickE {ε : Type} (st : OrchState ε) (t : ℤ) (r : EffReadings ε) :
    OrchState ε × List Report :=
  match collectSampleE st.sampler t r with
  | .ok (sampler', sample) => ({ st with sampler := sampler' }, onSampleCollected st.callbacks sample)
  | .error _ => (st, [])

/-- The number of RTT-bearing samples: those whose `network.rtt` is not
`null` (the filter of `inferNetworkMetrics`, part_001 lines 730-732). -/
def rttBearingCount (samples : List Sample) : ℕ :=
  ((samples.map (·.network)).filter (fun n => n.rtt ≠ none)).length

/-- The fraction of samples whose `network.online` flag is set
(spec.md §4.2, "fraction of samples online"). -/
def onlineFraction (samples : List Sample) : ℚ :=
  ((samples.filter (·.network.online)).length : ℚ) / samples.length

/-- The network-type change count the reliability score reads: the count
recorded in the first sample (`continuousSamples[0]?.network.networkChangeCount
|| 0`, part_001 line 779). -/
def recordedChangeCount (samples : List Sample) : ℕ :=
  ((samples.head?).map (·.network.networkChangeCount)).getD 0

/-!
### Concrete fixtures used by witnesses and counterexamples
-/

/-- A network reading with a 50 ms RTT. -/
def exNet : NetworkReading := { online := true, rtt := some 50, networkChangeCount := 0 }

/-- A network reading whose RTT is `null` (no `navigator.connection`, or a
zero reading coerced by `connection.rtt || null`). -/
def exNetNull : NetworkReading := { online := true, rtt := none, networkChangeCount := 0 }

/-- A memory reading with the API absent (`{ available: false }`). -/
def exMem : MemoryReading := { available := false, jsHeapLimit := none }

/-- A quiet performance reading. -/
def exPerf : PerfReading := { eventLoopDelay := some 0, timerThrottlingDetected := false }

/-- A visible, focused activity reading. -/
def exAct : ActivityReading :=
  { tabVisibility := "visible", idleDuration := some 0, focusLossCount := 0 }

/-- A battery reading with the API absent. -/
def exBat : BatteryReading := { available := false }

/-- A sample with an RTT-bearing network reading, at elapsed 0. -/
def exS1 : Sample :=
  { elapsed := 0, network := exNet, memory := exMem, perf := exPerf
    activity := exAct, battery := exBat }

/-- A sample whose network reading has no RTT, at elapsed 5000. -/
def exS2 : Sample :=
  { elapsed := 5000, network := exNetNull, memory := exMem, perf := exPerf
    activity := exAct, battery := exBat }

/-- A second RTT-less sample, at elapsed 0 (a Firefox/Safari session, where
`navigator.connection` is absent, produces exactly such samples). -/
def exS0Null : Sample :=
  { elapsed := 0, network := exNetNull, memory := exMem, perf := exPerf
    activity := exAct, battery := exBat }

/-- Permission metrics with neither camera nor microphone monitoring. -/
def exPM : PermissionMetrics := { camera_active_ratio := none, mic_activity_ratio := none }

/-- The five sub-readings of a successful tick. -/
def exR : Readings :=
  { network := exNet, memory := exMem, perf := exPerf, activity := exAct, battery := exBat }

/-- A running sampler with no samples yet. -/
def stRun : SamplerState := { isRunning := true, startTime := 0, samples := [] }

/-- A running sampler that has already collected one sample. -/
def stRunOne : SamplerState := { isRunning := true, startTime := 0, samples := [exS1] }

/-- Sub-readings for a tick in which reading the network signal THROWS and
the other four succeed. -/
def badReadings : EffReadings String :=
  { network := .error "connection read threw"
    memory := .ok exMem, perf := .ok exPerf, activity := .ok exAct, battery := .ok exBat }

/-- An orchestrator state with a registered `onSample` callback that throws
on every sample, an `onError` callback that returns normally, and one
collected sample. -/
def ostThrow : OrchState String :=
  { sampler := stRun
    callbacks := { onSample := some (fun _ => .error "boom"), onError := some (fun _ => .ok ()) }
    hasInferred := true
    permissionMetrics := exPM
    intervalMs := 5000 }

/-- An initialised orchestrator that has collected one sample. -/
def ostOne : OrchState String :=
  { sampler := stRunOne
    callbacks := { onSample := none, onError := none }
    hasInferred := true
    permissionMetrics := exPM
    intervalMs := 5000 }
/-- The populated head of the static flat record: the metadata, device,
display, browser, capability and permission columns (schema-exporter.js
lines 27-99). -/
def staticPopulatedColumns (inp : StaticInputs) : List (String × Cell) :=
  [
    ("record_id", inp.meta.record_id),
    ("session_id", inp.meta.session_id),
    ("user_id", inp.meta.user_id),
    ("agent_id", inp.meta.agent_id),
    ("record_type", inp.meta.record_type),
    ("collected_at", inp.meta.collected_at),
    ("page_url", inp.meta.page_url),
    ("app_name", inp.meta.app_name),
    ("app_version", inp.meta.app_version),
    ("environment", inp.meta.environment),
    ("platform", (inp.device.platform).orElse Cell.null),
    ("architecture", (inp.device.architecture).orElse Cell.null),
    ("cpu_cores", (inp.device.cpuLogicalCores).orElse Cell.null),
    ("device_memory_gb", (inp.device.deviceMemory).orElse Cell.null),
    ("gpu_vendor", (inp.device.gpuVendor).orElse Cell.null),
    ("gpu_renderer", (inp.device.gpuRenderer).orElse Cell.null),
    ("device_class", (inp.device.deviceClass).orElse Cell.null),
    ("touch_supported", (inp.device.touchSupport).orElse (Cell.b false)),
    ("max_touch_points", (inp.device.maxTouchPoints).orElse (Cell.n 0)),
    ("battery_supported", Cell.b inp.host.batterySupport),
    ("screen_width", (inp.display.screenResolution_width).orElse Cell.null),
    ("screen_height", (inp.display.screenResolution_height).orElse Cell.null),
    ("avail_width", (inp.display.availableScreenSize_width).orElse Cell.null),
    ("avail_height", (inp.display.availableScreenSize_height).orElse Cell.null),
    ("pixel_ratio", (inp.display.pixelRatio).orElse Cell.null),
    ("color_depth", (inp.display.colorDepth).orElse Cell.null),
    ("color_gamut", (inp.display.colorGamut).orElse Cell.null),
    ("hdr_supported", (inp.display.hdrSupport).orElse (Cell.b false)),
    ("browser_name", (inp.browser.browserVersion_name).orElse Cell.null),
    ("browser_version", (inp.browser.browserVersion_major).orElse Cell.null),
    ("rendering_engine", (inp.browser.renderingEngine).orElse Cell.null),
    ("js_engine_inferred", (inp.browser.javascriptEngine).orElse Cell.null),
    ("user_agent", (inp.browser.userAgent).orElse Cell.null),
    ("ua_arch", (inp.browser.uaCH_architecture).orElse Cell.null),
    ("language", (inp.browser.language).orElse Cell.null),
    ("languages", inp.browser.languages_joined),
    ("timezone_offset_minutes", (inp.browser.timezoneOffset).orElse Cell.null),
    ("do_not_track", (inp.browser.doNotTrack).orElse Cell.null),
    ("pdf_viewer_enabled", (inp.browser.pdfViewer).orElse (Cell.b false)),
    ("api_webgl", (inp.webAPIs.webgl).orElse (Cell.b false)),
    ("api_webgl2", (inp.webAPIs.webgl2).orElse (Cell.b false)),
    ("api_webgpu", (inp.webAPIs.webgpu).orElse (Cell.b false)),
    ("api_webrtc", (inp.webAPIs.webrtc).orElse (Cell.b false)),
    ("api_wasm", (inp.webAPIs.webassembly).orElse (Cell.b false)),
    ("api_service_worker", (inp.webAPIs.serviceWorkers).orElse (Cell.b false)),
    ("api_push", (inp.webAPIs.pushAPI).orElse (Cell.b false)),
    ("api_bg_sync", (inp.webAPIs.backgroundSync).orElse (Cell.b false)),
    ("api_media_devices", (inp.webAPIs.mediaDevices).orElse (Cell.b false)),
    ("api_clipboard", (inp.webAPIs.clipboardAPI).orElse (Cell.b false)),
    ("api_webauthn", (inp.webAPIs.webAuthn).orElse (Cell.b false)),
    ("api_payment_request", (inp.webAPIs.paymentRequest).orElse (Cell.b false)),
    ("api_file_system_access", (inp.webAPIs.fileSystemAccess).orElse (Cell.b false)),
    ("api_offscreen_canvas", (inp.webAPIs.offscreenCanvas).orElse (Cell.b false)),
    ("api_audio_context", (inp.webAPIs.audioContext).orElse (Cell.b false)),
    ("api_indexeddb", (inp.webAPIs.indexedDB).orElse (Cell.b false)),
    ("api_shared_array_buffer", (inp.webAPIs.sharedArrayBuffer).orElse (Cell.b false)),
    ("api_drm_supported", (inp.webAPIs.drmSupported).orElse (Cell.b false)),
    ("camera_available", (inp.permissions.camera_available).orElse (Cell.b false)),
    ("camera_device_count", (inp.permissions.camera_device_count).orElse (Cell.n 0)),
    ("microphone_available", (inp.permissions.microphone_available).orElse (Cell.b false)),
    ("microphone_device_count", (inp.permissions.microphone_device_count).orElse (Cell.n 0)),
    ("location_capable", (inp.permissions.location_capable).orElse (Cell.b false)),
    ("advanced_device_capable", (inp.permissions.advanced_device_capable).orElse (Cell.b false))]

/-- The columns the static record kind leaves unpopulated: the continuous
and inferred columns, emitted as literal `null`s (schema-exporter.js lines
101-214). -/
def staticNullColumns : List String := [
  "online", "effective_connection_type", "rtt_ms", "downlink_mbps", "rtt_jitter_ms", "network_change_count",
  "save_data_enabled", "download_speed_mbps", "upload_speed_mbps", "speed_test_method", "speed_test_timestamp", "connection_tier",
  "slow_connection_detected", "js_heap_limit_mb", "js_heap_total_mb", "js_heap_used_mb", "heap_growth_mb", "event_loop_delay_ms",
  "long_task_count", "timer_throttling_detected", "LCP_ms", "INP_ms", "CLS", "TTFB_ms",
  "FCP_ms", "DOMContentLoaded_ms", "Load_ms", "time_to_interactive_ms", "hardware_acceleration", "renderer_path",
  "resource_timing_avg_total_ms", "resource_timing_avg_transfer_kb", "resource_timing_total_requests", "resource_timing_cache_hit_ratio", "resource_timing_avg_status_code", "tab_visibility",
  "window_has_focus", "foreground_time_sec", "background_time_sec", "idle_time_sec", "focus_loss_count", "user_id_hash",
  "tenant_id", "session_start", "session_end", "session_duration_sec", "feature_used", "conversion_event",
  "conversion_value", "dwell_time_sec", "scroll_depth_pct", "click_count", "camera_permission", "camera_active",
  "camera_active_ratio", "camera_fps", "camera_fps_drops", "camera_freeze_events", "camera_switch_count", "virtual_camera_suspected",
  "mic_permission", "mic_active", "mic_activity_ratio", "mic_volume_avg", "mic_silence_ratio", "background_noise_level",
  "mic_mute_toggle_count", "screen_share_permission", "screen_share_active", "screen_share_type", "screen_share_resolution", "screen_share_fps",
  "screen_freeze_events", "screen_focus_loss_count", "screen_share_interruptions", "location_permission", "latitude", "longitude",
  "location_accuracy_m", "movement_speed_mps", "location_change_count", "geofence_violation", "clipboard_permission", "copy_event_count",
  "paste_event_count", "file_upload_count", "file_type", "file_size_kb", "file_checksum", "file_reuse_detected",
  "aborted_upload_count", "advanced_device_used", "advanced_device_type", "device_vendor_id", "device_product_id", "device_interaction_count",
  "device_disconnect_count", "screen_presence_ratio", "camera_presence_ratio", "mic_presence_ratio", "idle_ratio", "multitasking_likelihood",
  "network_stability_score", "session_reliability_score", "throttling_likelihood", "device_stability_score", "agent_presence_score", "session_integrity_score",
  "network_reliability_score", "composite_agent_risk_score", "risk_level"]

/-- The governance tail of the static flat record (schema-exporter.js lines
216-220). -/
def staticGovColumns (inp : StaticInputs) : List (String × Cell) :=
  [
    ("consent_version", inp.gov.consent_version),
    ("consent_timestamp", inp.gov.consent_timestamp),
    ("data_retention_policy", inp.gov.data_retention_policy),
    ("audit_reference_id", inp.gov.audit_reference_id)]

/-- The column names of the continuous flat record, in the source's
insertion order (the same 178 columns as `getColumnHeaders`, with the
`resource_timing_*` block inserted earlier). -/
def contRecordKeys : List String := [
  "record_id", "session_id", "user_id", "agent_id", "record_type", "collected_at",
  "page_url", "app_name", "app_version", "environment", "platform", "architecture",
  "cpu_cores", "device_memory_gb", "gpu_vendor", "gpu_renderer", "device_class", "touch_supported",
  "max_touch_points", "battery_supported", "screen_width", "screen_height", "avail_width", "avail_height",
  "pixel_ratio", "color_depth", "color_gamut", "hdr_supported", "browser_name", "browser_version",
  "rendering_engine", "js_engine_inferred", "user_agent", "ua_arch", "language", "languages",
  "timezone_offset_minutes", "do_not_track", "pdf_viewer_enabled", "api_webgl", "api_webgl2", "api_webgpu",
  "api_webrtc", "api_wasm", "api_service_worker", "api_push", "api_bg_sync", "api_media_devices",
  "api_clipboard", "api_webauthn", "api_payment_request", "api_file_system_access", "api_offscreen_canvas", "api_audio_context",
  "api_indexeddb", "api_shared_array_buffer", "api_drm_supported", "camera_available", "camera_device_count", "microphone_available",
  "microphone_device_count", "location_capable", "advanced_device_capable", "online", "effective_connection_type", "rtt_ms",
  "downlink_mbps", "rtt_jitter_ms", "network_change_count", "save_data_enabled", "download_speed_mbps", "upload_speed_mbps",
  "speed_test_method", "speed_test_timestamp", "connection_tier", "slow_connection_detected", "resource_timing_avg_total_ms", "resource_timing_avg_transfer_kb",
  "resource_timing_total_requests", "resource_timing_cache_hit_ratio", "resource_timing_avg_status_code", "js_heap_limit_mb", "js_heap_total_mb", "js_heap_used_mb",
  "heap_growth_mb", "event_loop_delay_ms", "long_task_count", "timer_throttling_detected", "LCP_ms", "INP_ms",
  "CLS", "TTFB_ms", "FCP_ms", "DOMContentLoaded_ms", "Load_ms", "time_to_interactive_ms",
  "hardware_acceleration", "renderer_path", "tab_visibility", "window_has_focus", "foreground_time_sec", "background_time_sec",
  "idle_time_sec", "focus_loss_count", "user_id_hash", "tenant_id", "session_start", "session_end",
  "session_duration_sec", "feature_used", "conversion_event", "conversion_value", "dwell_time_sec", "scroll_depth_pct",
  "click_count", "camera_permission", "camera_active", "camera_active_ratio", "camera_fps", "camera_fps_drops",
  "camera_freeze_events", "camera_switch_count", "virtual_camera_suspected", "mic_permission", "mic_active", "mic_activity_ratio",
  "mic_volume_avg", "mic_silence_ratio", "background_noise_level", "mic_mute_toggle_count", "screen_share_permission", "screen_share_active",
  "screen_share_type", "screen_share_resolution", "screen_share_fps", "screen_freeze_events", "screen_focus_loss_count", "screen_share_interruptions",
  "location_permission", "latitude", "longitude", "location_accuracy_m", "movement_speed_mps", "location_change_count",
  "geofence_violation", "clipboard_permission", "copy_event_count", "paste_event_count", "file_upload_count", "file_type",
  "file_size_kb", "file_checksum", "file_reuse_detected", "aborted_upload_count", "advanced_device_used", "advanced_device_type",
  "device_vendor_id", "device_product_id", "device_interaction_count", "device_disconnect_count", "screen_presence_ratio", "camera_presence_ratio",
  "mic_presence_ratio", "idle_ratio", "multitasking_likelihood", "network_stability_score", "session_reliability_score", "throttling_likelihood",
  "device_stability_score", "agent_presence_score", "session_integrity_score", "network_reliability_score", "composite_agent_risk_score", "risk_level",
  "consent_version", "consent_timestamp", "data_retention_policy", "audit_reference_id"]

theorem stabChain_not_inf (stdDev avg : ℚ) (h : 0 ≤ stdDev) (b : Bool) :
    (JSNum.maxJS (.val 0)
      (JSNum.sub (.val 100) (JSNum.mul (JSNum.divQ stdDev avg) (.val 100)))).roundJS ≠
      .inf b := by
  by_cases havg : avg = 0
  · by_cases hsd : stdDev = 0
    · simp [JSNum.divQ, havg, hsd, JSNum.mul, JSNum.sub, JSNum.maxJS, JSNum.roundJS]
    · have hpos : 0 < stdDev := lt_of_le_of_ne h (Ne.symm hsd)
      simp [JSNum.divQ, havg, hsd, hpos, JSNum.mul, JSNum.sub, JSNum.maxJS, JSNum.roundJS]
  · simp [JSNum.divQ, havg, JSNum.mul, JSNum.sub, JSNum.maxJS, JSNum.roundJS]

theorem calculateNetworkStability_not_inf (ns : List NetworkReading) (b : Bool) :
    calculateNetworkStability ns ≠ some (.inf b) := by
  unfold calculateNetworkStability
  split
  · simp
  · intro h
    exact stabChain_not_inf _ _ (Rat.sqrt_nonneg _) b (Option.some_injective _ h)

theorem jsOrZero_map_val (o : Option ℚ) : jsOrZero (o.map .val) = .val (o.getD 0) := by
  cases o with
  | none => rfl
  | some q =>
      simp only [Option.map_some, Option.getD_some, jsOrZero]
      split <;> simp_all

theorem jsOrZero_stability (o : Option JSNum) (h : ∀ b, o ≠ some (.inf b)) :
    jsOrZero o = .val (stabilityAsNumber o) := by
  match o with
  | none => rfl
  | some .nan => rfl
  | some (.val q) =>
      simp only [jsOrZero, stabilityAsNumber]
      split <;> simp_all
  | some (.inf b) => exact absurd rfl (h b)

theorem intToNat625 : Int.toNat 625 = 625 := rfl

theorem natSqrt625 : Nat.sqrt 625 = 25 := by norm_num

theorem determineRiskLevel_val (q : ℚ) : determineRiskLevel (.val q) = specRiskLevel q := by
  simp [determineRiskLevel, specRiskLevel, JSNum.geQ]

/-- C1.  For every non-empty sample sequence, `inferRiskScores` produces
`composite_agent_risk_score = round(0.4×agent_presence_score +
0.3×session_reliability_score + 0.3×network_stability_score)` (a `null` or
`NaN` reliability/stability score contributing `0` through the source's
`|| 0`), and `risk_level` is derived from that composite by the fixed
breakpoints `≥80 → "Low"`, `≥60 → "Medium"`, `≥40 → "High"`, else
`"Critical"`; in particular presence `100`, reliability `80`, stability `60`
give composite `82` and level `"Low"`, and composite `79` gives
`"Medium"`. -/
theorem composite_risk_formula (samples : List Sample) (pm : PermissionMetrics)
    (intervalMs : ℚ) (h : samples.length ≠ 0) :
    (inferRiskScores samples pm intervalMs).composite_agent_risk_score =
      some (.val (specComposite
        (calculateAgentPresenceScore (inferAgentPresence samples pm intervalMs))
        (((inferSessionIntegrity samples).session_reliability_score).getD 0)
        (stabilityAsNumber (inferSessionIntegrity samples).network_stability_score))) ∧
    (inferRiskScores samples pm intervalMs).risk_level =
      some (specRiskLevel (specComposite
        (calculateAgentPresenceScore (inferAgentPresence samples pm intervalMs))
        (((inferSessionIntegrity samples).session_reliability_score).getD 0)
        (stabilityAsNumber (inferSessionIntegrity samples).network_stability_score))) ∧
    specComposite 100 80 60 = 82 ∧
    specRiskLevel 82 = "Low" ∧
    specRiskLevel 79 = "Medium" := by
  have hstab : ∀ b, (inferSessionIntegrity samples).network_stability_score ≠
      some (.inf b) := by
    intro b
    unfold inferSessionIntegrity
    split
    · simp
    · exact calculateNetworkStability_not_inf _ b
  have hz := jsOrZero_stability _ hstab
  have hr := jsOrZero_map_val (inferSessionIntegrity samples).session_reliability_score
  refine ⟨?_, ?_, ?_, ?_, ?_⟩
  · simp only [inferRiskScores, if_neg h, hz, hr, JSNum.mul, JSNum.add, JSNum.roundJS,
      specComposite]
    congr 2
    ring_nf
  · simp only [inferRiskScores, if_neg h, hz, hr, JSNum.mul, JSNum.add, JSNum.roundJS]
    rw [determineRiskLevel_val]
    congr 2
    unfold specComposite
    congr 1
    ring
  · norm_num [specComposite, jsRound]
  · norm_num [specRiskLevel]
  · norm_num [specRiskLevel]

/-- Witness for C1 at the one-sample sequence `[exS1]`. -/
theorem composite_risk_formula_witness :
    ([exS1].length ≠ 0) ∧
    ((inferRiskScores [exS1] exPM 5000).composite_agent_risk_score =
      some (.val (specComposite
        (calculateAgentPresenceScore (inferAgentPresence [exS1] exPM 5000))
        (((inferSessionIntegrity [exS1]).session_reliability_score).getD 0)
        (stabilityAsNumber (inferSessionIntegrity [exS1]).network_stability_score))) ∧
    (inferRiskScores [exS1] exPM 5000).risk_level =
      some (specRiskLevel (specComposite
        (calculateAgentPresenceScore (inferAgentPresence [exS1] exPM 5000))
        (((inferSessionIntegrity [exS1]).session_reliability_score).getD 0)
        (stabilityAsNumber (inferSessionIntegrity [exS1]).network_stability_score))) ∧
    specComposite 100 80 60 = 82 ∧
    specRiskLevel 82 = "Low" ∧
    specRiskLevel 79 = "Medium") :=
  ⟨by decide, composite_risk_formula [exS1] exPM 5000 (by decide)⟩

/-- C2 (code bug).  At the two-sample sequence `[exS1, exS2]` exactly one
sample is RTT-bearing, so the claimed rule demands a `null` stability score
in every path; the filtered `inferNetworkMetrics` path does return `null`,
but `inferSessionIntegrity` (which passes the UNFILTERED network list,
part_001 line 885) returns the number `0`, the `null` RTT having been
averaged in as `0`.  With two identical 50 ms RTTs the score is 100, as
claimed. -/
theorem stability_null_rule_violation :
    rttBearingCount [exS1, exS2] = 1 ∧
    inferNetworkMetricsStability [exS1, exS2] = none ∧
    (inferSessionIntegrity [exS1, exS2]).network_stability_score = some (.val 0) ∧
    calculateNetworkStability [exNet, exNet] = some (.val 100) := by
  refine ⟨by decide, by decide, ?_, ?_⟩
  · norm_num [inferSessionIntegrity, calculateNetworkStability, exS1, exS2, exNet, exNetNull,
      Option.getD, List.foldl, JSNum.divQ, JSNum.mul, JSNum.sub, JSNum.maxJS, JSNum.roundJS,
      jsRound, Rat.sqrt, Int.sqrt, intToNat625, natSqrt625]
  · norm_num [calculateNetworkStability, exNet, Option.getD, List.foldl, JSNum.divQ,
      JSNum.mul, JSNum.sub, JSNum.maxJS, JSNum.roundJS, jsRound, Rat.sqrt, Int.sqrt]

/-- C3 (code bug).  On a realistic two-sample sequence in which no sample
carries an RTT (a browser without `navigator.connection`), `infer()` reports
`network_stability_score = NaN` in the session-integrity record
(`0/0` in the coefficient-of-variation step), which is neither `null` nor a
number in `[0, 100]`. -/
theorem score_range_violation_nan :
    (infer [exS0Null, exS2] exPM 5000).sessionIntegrity.network_stability_score =
      some JSNum.nan ∧
    some JSNum.nan ≠ (none : Option JSNum) ∧
    (∀ q : ℚ, JSNum.nan ≠ JSNum.val q) := by
  refine ⟨?_, by simp, fun q h => by cases h⟩
  norm_num [infer, inferSessionIntegrity, calculateNetworkStability, exS0Null, exS2, exNetNull,
    Option.getD, List.foldl, JSNum.divQ, JSNum.mul, JSNum.sub, JSNum.maxJS, JSNum.roundJS,
    jsRound, Rat.sqrt, Int.sqrt]

/-- C4 counterexample.  `collectSample` contains no `try`/`catch` (part_004
lines 86-101): with the network sub-reading throwing, the tick neither
appends a sample marked "unavailable" nor fires the callback — the exception
propagates out of `collectSample` and the state is unchanged. -/
theorem tick_exception_not_caught :
    collectSampleE stRun 5 badReadings = Except.error "connection read threw" ∧
    tickE stRun 5 badReadings = stRun ∧
    (tickE stRun 5 badReadings).samples.length = 0 := by
  refine ⟨rfl, rfl, rfl⟩

/-- C4 amended.  An exception thrown while reading a sub-signal is NOT
caught per sub-reading: it propagates out of `collectSample`, so that tick
appends no sample and fires no per-sample callback (the orchestrator wrapper
never reaches `onSampleCollected`); the sampling loop itself survives — the
running flag is untouched, the interval keeps firing, and the next
successful tick appends its sample normally.  (Sub-signals whose APIs are
merely absent never throw: the collect helpers test for presence and return
explicit `{available: false}`/`null`-field markers, as in the `exMem`,
`exBat` and `exNetNull` fixtures, which flow through the success path.) -/
theorem subsignal_throw_aborts_tick {ε : Type} (st : SamplerState) (ost : OrchState ε)
    (t t2 : ℤ) (r : EffReadings ε) (e : ε) (g : Readings)
    (h : r.network = Except.error e) :
    collectSampleE st t r = Except.error e ∧
    tickE st t r = st ∧
    (tickE st t r).isRunning = st.isRunning ∧
    ((collectSample (tickE st t r) t2 g).1).samples =
      st.samples ++ [(collectSample st t2 g).2] ∧
    orchTickE ost t r = (ost, []) := by
  have hc : ∀ (s : SamplerState), collectSampleE s t r = Except.error e := by
    intro s
    simp [collectSampleE, h, Bind.bind, Except.bind]
  refine ⟨hc st, ?_, ?_, ?_, ?_⟩
  · simp [tickE, hc]
  · simp [tickE, hc]
  · simp [tickE, hc, collectSample]
  · simp [orchTickE, hc]

/-- Witness for C4 amended at the concrete throwing tick. -/
theorem subsignal_throw_aborts_tick_witness :
    (badReadings.network = Except.error "connection read threw") ∧
    (collectSampleE stRun 5 badReadings = Except.error "connection read threw" ∧
    tickE stRun 5 badReadings = stRun ∧
    (tickE stRun 5 badReadings).isRunning = stRun.isRunning ∧
    ((collectSample (tickE stRun 5 badReadings) 10 exR).1).samples =
      stRun.samples ++ [(collectSample stRun 10 exR).2] ∧
    orchTickE ostThrow 5 badReadings = (ostThrow, [])) :=
  ⟨rfl, subsignal_throw_aborts_tick stRun ostThrow 5 10 badReadings
    "connection read threw" exR rfl⟩

theorem runTicks_elapsed (ticks : List (ℤ × Readings)) (s : SamplerState) :
    (ticks.foldl (fun st tr => (collectSample st tr.1 tr.2).1) s).samples.map Sample.elapsed =
      s.samples.map Sample.elapsed ++ ticks.map (fun tr => tr.1 - s.startTime) := by
  induction ticks generalizing s with
  | nil => simp
  | cons hd tl ih =>
      simp only [List.foldl_cons, List.map_cons]
      rw [ih]
      simp [collectSample]

/-- C5.  Within one sampling session the sample sequence is append-only:
each tick appends exactly one sample at the end, leaving the existing
samples untouched; and provided the wall clock strictly advances between
ticks (`Date.now()` values strictly increase along the session), the
`elapsed` offsets of the collected samples are strictly increasing. -/
theorem monotonic_sampling (st : SamplerState) (t0 : ℤ) (r0 : Readings)
    (ticks : List (ℤ × Readings)) (h0 : st.isRunning = false)
    (hchain : List.Chain' (· < ·) (t0 :: ticks.map Prod.fst)) :
    (∀ (s : SamplerState) (t : ℤ) (r : Readings),
        ((collectSample s t r).1).samples = s.samples ++ [(collectSample s t r).2]) ∧
    (runSession st t0 r0 ticks).samples.map Sample.elapsed =
      (t0 :: ticks.map Prod.fst).map (fun t => t - t0) ∧
    List.Chain' (· < ·) ((runSession st t0 r0 ticks).samples.map Sample.elapsed) := by
  have hstart : (st.start t0 r0).samples.map Sample.elapsed = [t0 - t0] ∧
      (st.start t0 r0).startTime = t0 := by
    constructor <;> simp [SamplerState.start, h0, collectSample]
  have helapsed : (runSession st t0 r0 ticks).samples.map Sample.elapsed =
      (t0 :: ticks.map Prod.fst).map (fun t => t - t0) := by
    unfold runSession
    rw [runTicks_elapsed, hstart.1, hstart.2]
    simp [List.map_map]
  refine ⟨fun s t r => rfl, helapsed, ?_⟩
  rw [helapsed, List.chain'_map]
  exact hchain.imp fun a b hab => sub_lt_sub_right hab t0

/-- Witness for C5: a session started at time 100 with ticks at 105 and
110. -/
theorem monotonic_sampling_witness :
    (SamplerState.init.isRunning = false) ∧
    List.Chain' (· < ·) ((100 : ℤ) :: ([((105 : ℤ), exR), (110, exR)].map Prod.fst)) ∧
    ((∀ (s : SamplerState) (t : ℤ) (r : Readings),
        ((collectSample s t r).1).samples = s.samples ++ [(collectSample s t r).2]) ∧
    (runSession SamplerState.init 100 exR [(105, exR), (110, exR)]).samples.map Sample.elapsed =
      ((100 : ℤ) :: ([((105 : ℤ), exR), (110, exR)].map Prod.fst)).map (fun t => t - 100) ∧
    List.Chain' (· < ·)
      ((runSession SamplerState.init 100 exR [(105, exR), (110, exR)]).samples.map
        Sample.elapsed)) :=
  ⟨rfl, by norm_num [List.chain'_cons],
    monotonic_sampling SamplerState.init 100 exR [(105, exR), (110, exR)] rfl
      (by norm_num [List.chain'_cons])⟩

/-- C6.  If the registered `onSample` callback throws on the sample of a
tick, the exception is caught at the call site: the error is routed to the
`onError` callback when one is registered (the first report goes to the
`onError` channel) and is logged to the console otherwise; the sample was
already appended before the callback ran and stays appended; the sampler
keeps running and the next tick appends its sample as usual. -/
theorem callback_isolation {ε : Type} (st : OrchState ε) (t t2 : ℤ) (r r2 : Readings)
    (cb : Sample → Except ε Unit) (e : ε)
    (hcb : st.callbacks.onSample = some cb)
    (hthrow : cb (collectSample st.sampler t r).2 = Except.error e) :
    ((orchTick st t r).1).sampler.samples =
      st.sampler.samples ++ [(collectSample st.sampler t r).2] ∧
    (∀ f, st.callbacks.onError = some f →
      ((orchTick st t r).2).head? = some (Report.toOnError "Sample callback error")) ∧
    (st.callbacks.onError = none →
      (orchTick st t r).2 = [Report.toConsole "Sample callback error"]) ∧
    ((orchTick st t r).1).sampler.isRunning = st.sampler.isRunning ∧
    ((orchTick (orchTick st t r).1 t2 r2).1).sampler.samples =
      st.sampler.samples ++ [(collectSample st.sampler t r).2] ++
        [(collectSample ((orchTick st t r).1).sampler t2 r2).2] := by
  refine ⟨rfl, ?_, ?_, rfl, rfl⟩
  · intro f hf
    simp only [orchTick, onSampleCollected, collectSample, hcb]
    simp only [collectSample] at hthrow
    rw [hthrow]
    simp only [handleError, hf]
    split <;> rfl
  · intro hf
    simp only [orchTick, onSampleCollected, collectSample, hcb]
    simp only [collectSample] at hthrow
    rw [hthrow]
    simp only [handleError, hf]

/-- Witness for C6 at a throwing callback with a registered `onError`. -/
theorem callback_isolation_witness :
    (ostThrow.callbacks.onSample = some (fun _ => Except.error "boom")) ∧
    ((fun _ => Except.error "boom" : Sample → Except String Unit)
        (collectSample ostThrow.sampler 5 exR).2 = Except.error "boom") ∧
    (((orchTick ostThrow 5 exR).1).sampler.samples =
      ostThrow.sampler.samples ++ [(collectSample ostThrow.sampler 5 exR).2] ∧
    (∀ f, ostThrow.callbacks.onError = some f →
      ((orchTick ostThrow 5 exR).2).head? = some (Report.toOnError "Sample callback error")) ∧
    (ostThrow.callbacks.onError = none →
      (orchTick ostThrow 5 exR).2 = [Report.toConsole "Sample callback error"]) ∧
    ((orchTick ostThrow 5 exR).1).sampler.isRunning = ostThrow.sampler.isRunning ∧
    ((orchTick (orchTick ostThrow 5 exR).1 10 exR).1).sampler.samples =
      ostThrow.sampler.samples ++ [(collectSample ostThrow.sampler 5 exR).2] ++
        [(collectSample ((orchTick ostThrow 5 exR).1).sampler 10 exR).2]) :=
  ⟨rfl, rfl, callback_isolation ostThrow 5 10 exR exR _ "boom" rfl rfl⟩

/-- C7.  For every non-empty sample sequence the session reliability score
equals the online fraction times 100, reduced by a penalty of 2 points per
recorded network-type change capped at 20 points, clamped at 0 and rounded
to the nearest integer.  The change count the scorer reads is the one
recorded in the FIRST sample of the sequence (part_001 line 779). -/
theorem session_reliability_formula (samples : List Sample) (h : samples.length ≠ 0) :
    calculateSessionReliability samples =
      some (jsRound (max 0
        (onlineFraction samples * 100 - min 20 (2 * (recordedChangeCount samples : ℚ))))) := by
  unfold calculateSessionReliability onlineFraction recordedChangeCount
  rw [if_neg h]
  ring_nf

/-- Witness for C7 at a two-sample sequence with one offline sample and one
recorded network change (fraction 1/2, penalty 2, score round(48) = 48). -/
theorem session_reliability_formula_witness :
    (([{ exS1 with network := { online := true, rtt := none, networkChangeCount := 1 } },
        { exS2 with network := { online := false, rtt := none, networkChangeCount := 1 } }] :
          List Sample).length ≠ 0) ∧
    calculateSessionReliability
        [{ exS1 with network := { online := true, rtt := none, networkChangeCount := 1 } },
         { exS2 with network := { online := false, rtt := none, networkChangeCount := 1 } }] =
      some (jsRound (max 0
        (onlineFraction
            [{ exS1 with network := { online := true, rtt := none, networkChangeCount := 1 } },
             { exS2 with network := { online := false, rtt := none, networkChangeCount := 1 } }] *
            100 -
          min 20 (2 * (recordedChangeCount
            [{ exS1 with network := { online := true, rtt := none, networkChangeCount := 1 } },
             { exS2 with network := { online := false, rtt := none, networkChangeCount := 1 } }] :
              ℚ))))) :=
  ⟨by decide, session_reliability_formula _ (by decide)⟩

/-- C8 counterexample.  On an initialised orchestrator holding one sample,
`reset()` empties the sample sequence, but a subsequent derived-score read
returns `null` — NO record at all — because `reset` sets
`this.inferredTelemetry = null` and `getInferredTelemetry` (telemetry.js
lines 189-194) short-circuits on that; it does not return the all-`null`
"insufficient data" shape. -/
theorem reset_returns_no_record :
    (OrchState.reset ostOne).sampler.samples.length = 0 ∧
    getInferredTelemetry (OrchState.reset ostOne) = none ∧
    (none : Option Inferred) ≠ some allNullInferred := by
  refine ⟨rfl, rfl, by simp⟩

/-- C8 amended.  After `reset()` the sample sequence has length 0, and a
subsequent `getInferredTelemetry()` returns `null` (the scorer instance was
discarded) until the orchestrator is initialised again; the scorer's
`infer()` itself, applied to an empty sample sequence, does return the
fixed-shape record whose score fields are all `null`. -/
theorem reset_clears_state {ε : Type} (st : OrchState ε) (pm : PermissionMetrics) (i : ℚ) :
    (OrchState.reset st).sampler.samples = [] ∧
    getInferredTelemetry (OrchState.reset st) = none ∧
    infer [] pm i = allNullInferred := by
  refine ⟨rfl, rfl, ?_⟩
  simp [infer, inferAgentPresence, inferSessionIntegrity, inferRiskScores, allNullInferred]

/-- C10.  `stop()` retains the collected samples, but a subsequent `start()`
(legal because the sampler is no longer running) CLEARS them before taking
the immediate first sample: a `stop()`/`start()` cycle discards the prior
sequence even though `reset()` was never called.  `start()` on a running
sampler is a no-op. -/
theorem start_discards_retained_samples (st : SamplerState) (t : ℤ) (r : Readings)
    (h : st.isRunning = true) :
    (st.stop).samples = st.samples ∧
    (st.stop).isRunning = false ∧
    ((st.stop).start t r).samples =
      [{ elapsed := 0, network := r.network, memory := r.memory, perf := r.perf,
         activity := r.activity, battery := r.battery }] ∧
    (∀ s : SamplerState, s.isRunning = false →
      (s.start t r).samples =
        [{ elapsed := 0, network := r.network, memory := r.memory, perf := r.perf,
           activity := r.activity, battery := r.battery }]) ∧
    st.start t r = st := by
  have hs : ∀ s : SamplerState, s.isRunning = false →
      (s.start t r).samples =
        [{ elapsed := 0, network := r.network, memory := r.memory, perf := r.perf,
           activity := r.activity, battery := r.battery }] := by
    intro s hsr
    simp [SamplerState.start, hsr, collectSample]
  refine ⟨?_, ?_, ?_, hs, ?_⟩
  · simp [SamplerState.stop, h]
  · simp [SamplerState.stop, h]
  · exact hs _ (by simp [SamplerState.stop, h])
  · simp [SamplerState.start, h]

/-- Witness for C10 at a running sampler holding one sample. -/
theorem start_discards_retained_samples_witness :
    (stRunOne.isRunning = true) ∧
    ((stRunOne.stop).samples = stRunOne.samples ∧
    (stRunOne.stop).isRunning = false ∧
    ((stRunOne.stop).start 7 exR).samples =
      [{ elapsed := 0, network := exR.network, memory := exR.memory, perf := exR.perf,
         activity := exR.activity, battery := exR.battery }] ∧
    (∀ s : SamplerState, s.isRunning = false →
      (s.start 7 exR).samples =
        [{ elapsed := 0, network := exR.network, memory := exR.memory, perf := exR.perf,
           activity := exR.activity, battery := exR.battery }]) ∧
    stRunOne.start 7 exR = stRunOne) :=
  ⟨rfl, start_discards_retained_samples stRunOne 7 exR rfl⟩

set_option maxRecDepth 8000 in
/-- C9.  Every flat record contains every column of the fixed header list:
the static record's keys are exactly `getColumnHeaders` in order, and the
continuous record's keys are the same 178 columns (insertion order differs
only in the placement of the `resource_timing_*` block); the columns the
static record kind leaves unpopulated are emitted as literal `null`s; and
the delimited-text export consists of the header row first, followed by one
line per record whose values are rendered by mapping the HEADER list over
the record — the same order for every row. -/
theorem export_columns_complete (si : StaticInputs) (ci : ContInputs)
    (rows : List (List (String × Cell))) :
    (exportStatic si).map Prod.fst = getColumnHeaders ∧
    (exportContinuous ci).map Prod.fst = contRecordKeys ∧
    (∀ h ∈ getColumnHeaders, h ∈ (exportContinuous ci).map Prod.fst) ∧
    exportStatic si =
      staticPopulatedColumns si ++ staticNullColumns.map (fun k => (k, Cell.null)) ++
        staticGovColumns si ∧
    exportToCSV rows =
      String.intercalate "," getColumnHeaders ::
        rows.map (fun row =>
          String.intercalate "," (getColumnHeaders.map (fun h => csvCell (lookupCell row h)))) := by
  have hck : (exportContinuous ci).map Prod.fst = contRecordKeys := rfl
  have hmem : ∀ h ∈ getColumnHeaders, h ∈ contRecordKeys := by decide
  refine ⟨rfl, hck, ?_, rfl, rfl⟩
  intro h hh
  rw [hck]
  exact hmem h hh
